import Mathlib

/-!
GStreamer tutorial programs: basic-tutorial-3 and basic-tutorial-8.

A shallow embedding of the two C programs `basic-tutorial-3.c` and
`basic-tutorial-8.c`.

The programs are glue around the GStreamer / GLib framework.  The framework is
not part of the repository, so every framework call whose result steers the
control flow of the programs is an input of the model (the `Env` and `Gst`
records, and the `Event` lists that stand for what the framework delivers
while the program blocks).  Every framework call that has an effect is
recorded, in program order, in a list of `Call`s, so that statements such as
"nothing was linked" or "the pipeline was never set to PLAYING" are statements
about that list.

Pointers are `Option`s: `none` is `NULL`.
-/

/-! ## Framework vocabulary shared by both programs -/

/-- Handle of a `GstElement` (pipelines are elements too). -/
abbrev GstElement := Nat

/-- Handle of a `GstPad`. -/
abbrev GstPad := Nat

/-- The enum `GstState`. -/
inductive GstState where
  | GST_STATE_VOID_PENDING
  | GST_STATE_NULL
  | GST_STATE_READY
  | GST_STATE_PAUSED
  | GST_STATE_PLAYING
  deriving DecidableEq, Repr

/-- The enum `GstStateChangeReturn`. -/
inductive GstStateChangeReturn where
  | GST_STATE_CHANGE_FAILURE
  | GST_STATE_CHANGE_SUCCESS
  | GST_STATE_CHANGE_ASYNC
  | GST_STATE_CHANGE_NO_PREROLL
  deriving DecidableEq, Repr

/-- The values of `GST_MESSAGE_TYPE (msg)` the programs distinguish; every
other message type is `other` with its numeric code. -/
inductive GstMessageType where
  | GST_MESSAGE_ERROR
  | GST_MESSAGE_EOS
  | GST_MESSAGE_STATE_CHANGED
  | other (code : Nat)
  deriving DecidableEq, Repr

/-- The enum `GstPadLinkReturn`: `GST_PAD_LINK_OK` is 0, the failures are the
negative values. -/
abbrev GstPadLinkReturn := Int

/-- The constant `GST_PAD_LINK_OK`. -/
def GST_PAD_LINK_OK : GstPadLinkReturn := 0

/-- The macro `GST_PAD_LINK_FAILED(ret)`, which is `((ret) < GST_PAD_LINK_OK)`. -/
def GST_PAD_LINK_FAILED (ret : GstPadLinkReturn) : Bool := decide (ret < GST_PAD_LINK_OK)

/-- The enum `GstFlowReturn`: `GST_FLOW_OK` is 0. -/
abbrev GstFlowReturn := Int

/-- The constant `GST_FLOW_OK`. -/
def GST_FLOW_OK : GstFlowReturn := 0

/-- The constant `GST_FLOW_ERROR`. -/
def GST_FLOW_ERROR : GstFlowReturn := -5

/-- A `GstStructure`, of which the programs read the name only. -/
structure GstStructure where
  name : String
  deriving DecidableEq, Repr

/-- A `GstCaps`: a list of structures. -/
structure GstCaps where
  structures : List GstStructure
  deriving DecidableEq, Repr

/-- A bus message as far as the programs look into it: its type, its source
object, the parsed error text and debug string (for error messages) and the
parsed old and new state (for state-changed messages). -/
structure GstMessage where
  type : GstMessageType
  src : Nat
  src_name : String
  err_message : String
  debug_info : Option String
  old_state : GstState
  new_state : GstState
  deriving DecidableEq, Repr

/-- A `GstBuffer` as far as `push_data` fills it in: its size and its two
time fields. -/
structure GstBuffer where
  size : Nat
  timestamp : Nat
  duration : Nat
  deriving DecidableEq, Repr

/-- The framework calls with an effect that the two programs make.  Printing
calls carry the format string and the string arguments. -/
inductive Call where
  | gst_init
  | memset_data
  | gst_element_factory_make (factoryname name : String)
  | gst_pipeline_new (name : String)
  | g_printerr (fmt : String) (args : List String)
  | g_print (fmt : String) (args : List String)
  | g_object_set (object : Option GstElement) (properties : List String)
  | g_signal_connect (object : String) (signal handler : String)
  | gst_bin_add_many (bin : Option GstElement) (elements : List (Option GstElement))
  | gst_element_link_many (elements : List (Option GstElement))
  | gst_element_set_state (element : Option GstElement) (state : GstState)
  | gst_element_get_bus (element : Option GstElement)
  | gst_bus_timed_pop_filtered
  | gst_bus_add_signal_watch
  | gst_message_parse_error
  | gst_message_parse_state_changed
  | g_clear_error
  | g_free
  | gst_message_unref (is_null : Bool)
  | gst_pad_get_current_caps (pad : GstPad)
  | gst_element_get_static_pad (element : Option GstElement) (name : String)
  | gst_element_get_request_pad (element : Option GstElement) (name : String)
  | gst_element_release_request_pad (element : Option GstElement) (pad : Option GstPad)
  | gst_pad_link (srcpad sinkpad : Option GstPad)
  | gst_caps_unref
  | gst_object_unref (object : Option Nat)
  | gst_audio_info_to_caps
  | gst_buffer_new_and_alloc (size : Nat)
  | gst_buffer_map_write_unmap
  | push_buffer (buffer : GstBuffer)
  | gst_buffer_unref
  | pull_sample
  | gst_sample_unref
  | g_idle_add (id : Nat)
  | g_source_remove (id : Nat)
  | g_main_loop_new
  | g_main_loop_run
  | g_main_loop_quit
  deriving DecidableEq, Repr

/-- GLib's `g_str_has_prefix (str, prefix)`; a `NULL` string has no prefix
(the call returns `FALSE`). -/
def g_str_has_prefix (str : Option String) (pfx : String) : Bool :=
  match str with
  | none => false
  | some s => pfx.data.isPrefixOf s.data

/-- GStreamer's `gst_caps_get_structure (caps, index)`. -/
def gst_caps_get_structure (caps : Option GstCaps) (index : Nat) : Option GstStructure :=
  match caps with
  | none => none
  | some c => c.structures.get? index

/-- GStreamer's `gst_structure_get_name (structure)`. -/
def gst_structure_get_name (s : Option GstStructure) : Option String :=
  s.map GstStructure.name

/-- GStreamer's `gst_element_state_get_name (state)`. -/
def gst_element_state_get_name : GstState → String
  | GstState.GST_STATE_VOID_PENDING => "VOID_PENDING"
  | GstState.GST_STATE_NULL => "NULL"
  | GstState.GST_STATE_READY => "READY"
  | GstState.GST_STATE_PAUSED => "PAUSED"
  | GstState.GST_STATE_PLAYING => "PLAYING"

/-- What `%s` prints for a string pointer. -/
def fmt_s (s : Option String) : String := s.getD "(null)"

/-! ## basic-tutorial-3 -/

namespace Tutorial3

/-- The struct `CustomData` of basic-tutorial-3. -/
structure CustomData where
  pipeline : Option GstElement
  source : Option GstElement
  audio_convert : Option GstElement
  audio_resample : Option GstElement
  audio_sink : Option GstElement
  video_convert : Option GstElement
  video_sink : Option GstElement
  deriving DecidableEq, Repr

/-- The answers of the framework that `pad_added_handler` reads during one
invocation. -/
structure Gst where
  object_name : Nat → String
  gst_pad_get_current_caps : GstPad → Option GstCaps
  gst_element_get_static_pad : Option GstElement → String → Option GstPad
  gst_pad_is_linked : Option GstPad → Bool
  gst_pad_link : GstPad → Option GstPad → GstPadLinkReturn

/-- The code after the label `exit:` of `pad_added_handler`. -/
def pad_added_handler_exit (new_pad_caps : Option GstCaps) (sink_pad : Option GstPad) :
    List Call :=
  (if new_pad_caps ≠ none then [Call.gst_caps_unref] else [])
    ++ [Call.gst_object_unref sink_pad]

/-- The sink pad `pad_added_handler` selects for a pad of type `new_pad_type`,
with the calls made to get it; `none` in the first component is the `goto exit`
of the last `else`, where `sink_pad` still holds its initial `NULL`. -/
def select_sink_pad (gst : Gst) (data : CustomData) (new_pad_type : Option String) :
    Option (Option GstPad) × List Call :=
  if g_str_has_prefix new_pad_type "audio/x-raw" then
    (some (gst.gst_element_get_static_pad data.audio_convert "sink"),
      [Call.gst_element_get_static_pad data.audio_convert "sink"])
  else if g_str_has_prefix new_pad_type "video/x-raw" then
    (some (gst.gst_element_get_static_pad data.video_convert "sink"),
      [Call.gst_element_get_static_pad data.video_convert "sink"])
  else
    (none,
      [Call.g_print "It has type '%s' which is not raw audio nor raw video. Ignoring.\n"
        [fmt_s new_pad_type]])

/-- The function `pad_added_handler`: the calls it makes, in order. -/
def pad_added_handler (gst : Gst) (src : GstElement) (new_pad : GstPad) (data : CustomData) :
    List Call :=
  let sink_pad0 : Option GstPad := none
  let t0 := [Call.g_print "Received new pad '%s' from '%s':\n"
    [gst.object_name new_pad, gst.object_name src]]
  let new_pad_caps := gst.gst_pad_get_current_caps new_pad
  let new_pad_struct := gst_caps_get_structure new_pad_caps 0
  let new_pad_type := gst_structure_get_name new_pad_struct
  let t1 := t0 ++ [Call.gst_pad_get_current_caps new_pad]
  match select_sink_pad gst data new_pad_type with
  | (none, t) => t1 ++ t ++ pad_added_handler_exit new_pad_caps sink_pad0
  | (some sink_pad, t) =>
    let t2 := t1 ++ t
    if gst.gst_pad_is_linked sink_pad then
      t2 ++ [Call.g_print "We are already linked, Ignoring.\n" []]
        ++ pad_added_handler_exit new_pad_caps sink_pad
    else
      let ret := gst.gst_pad_link new_pad sink_pad
      let t3 := t2 ++ [Call.gst_pad_link (some new_pad) sink_pad]
      let t4 :=
        if GST_PAD_LINK_FAILED ret then
          t3 ++ [Call.g_print "Type is '%s' bus link failed.\n" [fmt_s new_pad_type]]
        else
          t3 ++ [Call.g_print "Link succeeded (type '%s').\n" [fmt_s new_pad_type]]
      t4 ++ pad_added_handler_exit new_pad_caps sink_pad

/-- What happens while `main` is inside its `do ... while` loop: the source
element emits `pad-added` (the framework then calls `pad_added_handler`, with
the framework answers `gst` of that moment), or
`gst_bus_timed_pop_filtered` returns `msg` to the loop. -/
inductive Event where
  | pad_added (gst : Gst) (src : GstElement) (new_pad : GstPad)
  | bus_pop (msg : Option GstMessage)

/-- One pass through the body of the `do ... while` loop of `main` for the
popped message `msg`: the calls made and the new value of `terminate`. -/
def loop_body (data : CustomData) (terminate : Bool) (msg : Option GstMessage) :
    List Call × Bool :=
  let t0 := [Call.gst_bus_timed_pop_filtered]
  let r : List Call × Bool :=
    match msg with
    | none => (t0, terminate)
    | some m =>
      match m.type with
      | GstMessageType.GST_MESSAGE_ERROR =>
        (t0 ++ [Call.gst_message_parse_error,
                Call.g_printerr "Error received from element %s: %s\n" [m.src_name, m.err_message],
                Call.g_printerr "Debugging information: %s\n" [m.debug_info.getD "none"],
                Call.g_clear_error,
                Call.g_free], true)
      | GstMessageType.GST_MESSAGE_EOS =>
        (t0 ++ [Call.g_print "EOS reached.\n" []], true)
      | GstMessageType.GST_MESSAGE_STATE_CHANGED =>
        if some m.src = data.pipeline then
          (t0 ++ [Call.gst_message_parse_state_changed,
                  Call.g_print "Pipeline state changed from %s to %s:\n"
                    [gst_element_state_get_name m.old_state,
                     gst_element_state_get_name m.new_state]], terminate)
        else
          (t0, terminate)
      | GstMessageType.other _ =>
        (t0 ++ [Call.g_printerr "Unexpected message received.\n" []], terminate)
  (r.1 ++ [Call.gst_message_unref (decide (msg = none))], r.2)

/-- Where the `do ... while (!terminate)` loop of `main` stands after the
events delivered so far: the calls made, the value of `terminate`, whether the
loop was left, and how many events it consumed. -/
structure LoopResult where
  calls : List Call
  terminate : Bool
  exited : Bool
  consumed : Nat
  deriving DecidableEq, Repr

/-- The `do ... while (!terminate)` loop of `main` over the events the
framework delivers.  With no event left the loop is blocked in
`gst_bus_timed_pop_filtered` (timeout `GST_CLOCK_TIME_NONE`): `exited` is
`false`. -/
def bus_loop (data : CustomData) (terminate : Bool) : List Event → LoopResult
  | [] => { calls := [], terminate := terminate, exited := false, consumed := 0 }
  | Event.pad_added gst src new_pad :: rest =>
    let r := bus_loop data terminate rest
    { r with calls := pad_added_handler gst src new_pad data ++ r.calls,
             consumed := r.consumed + 1 }
  | Event.bus_pop msg :: rest =>
    let b := loop_body data terminate msg
    if !b.2 then
      let r := bus_loop data b.2 rest
      { r with calls := b.1 ++ r.calls, consumed := r.consumed + 1 }
    else
      { calls := b.1, terminate := b.2, exited := true, consumed := 1 }

/-- The framework answers that steer `main`. -/
structure Env where
  gst_element_factory_make : String → String → Option GstElement
  gst_pipeline_new : String → Option GstElement
  gst_element_link_many : List (Option GstElement) → Bool
  gst_element_set_state : Option GstElement → GstState → GstStateChangeReturn

/-- The element creation of `main` (lines 28 to 36): the struct it fills in. -/
def create_elements (env : Env) : CustomData :=
  { source := env.gst_element_factory_make "uridecodebin" "source",
    audio_convert := env.gst_element_factory_make "audioconvert" "audio_convert",
    audio_resample := env.gst_element_factory_make "audioresample" "audio_resample",
    audio_sink := env.gst_element_factory_make "autoaudiosink" "audio_sink",
    video_convert := env.gst_element_factory_make "videoconvert" "video_convert",
    video_sink := env.gst_element_factory_make "autovideosink" "video_sink",
    pipeline := env.gst_pipeline_new "test-pipeline" }

/-- The calls of the element creation of `main`, in order. -/
def create_calls : List Call :=
  [Call.gst_init,
   Call.gst_element_factory_make "uridecodebin" "source",
   Call.gst_element_factory_make "audioconvert" "audio_convert",
   Call.gst_element_factory_make "audioresample" "audio_resample",
   Call.gst_element_factory_make "autoaudiosink" "audio_sink",
   Call.gst_element_factory_make "videoconvert" "video_convert",
   Call.gst_element_factory_make "autovideosink" "video_sink",
   Call.gst_pipeline_new "test-pipeline"]

/-- The function `main` of basic-tutorial-3 run against the framework answers
`env` and the events delivered while it is in its loop: the calls made, and the
value returned (`none` while `main` is still blocked in the loop).  Falling off
the end of `main` returns 0. -/
def main (env : Env) (events : List Event) : List Call × Option Int :=
  let terminate := false
  let data := create_elements env
  let t0 := create_calls
  if data.pipeline = none || data.source = none || data.audio_convert = none
      || data.audio_resample = none || data.audio_sink = none || data.video_convert = none
      || data.video_sink = none then
    (t0 ++ [Call.g_printerr "Not all elements could be created.\n" []], some (-1))
  else
    let t1 := t0 ++ [Call.gst_bin_add_many data.pipeline
      [data.source, data.audio_convert, data.audio_resample, data.audio_sink,
       data.video_convert, data.video_sink]]
    let t2 := t1 ++ [Call.gst_element_link_many
      [data.audio_convert, data.audio_resample, data.audio_sink]]
    if !env.gst_element_link_many [data.audio_convert, data.audio_resample, data.audio_sink] then
      (t2 ++ [Call.g_printerr "Audio elements could not be linked.\n" [],
              Call.gst_object_unref data.pipeline], some (-1))
    else
      let t3 := t2 ++ [Call.gst_element_link_many [data.video_convert, data.video_sink]]
      if !env.gst_element_link_many [data.video_convert, data.video_sink] then
        (t3 ++ [Call.g_printerr "Video elements could not be linked.\n" [],
                Call.gst_object_unref data.pipeline], some (-1))
      else
        let t4 := t3 ++ [Call.g_object_set data.source ["uri"],
          Call.g_signal_connect "source" "pad-added" "pad_added_handler"]
        let ret := env.gst_element_set_state data.pipeline GstState.GST_STATE_PLAYING
        let t5 := t4 ++ [Call.gst_element_set_state data.pipeline GstState.GST_STATE_PLAYING]
        if ret = GstStateChangeReturn.GST_STATE_CHANGE_FAILURE then
          (t5 ++ [Call.g_printerr "Unable to set the pipeline to the playing state.\n" [],
                  Call.gst_object_unref data.pipeline], some (-1))
        else
          let t6 := t5 ++ [Call.gst_element_get_bus data.pipeline]
          let r := bus_loop data terminate events
          (t6 ++ r.calls, if r.exited then some 0 else none)

end Tutorial3

/-! ## basic-tutorial-8 -/

namespace Tutorial8

/-- The macro `CHUNK_SIZE`. -/
def CHUNK_SIZE : Nat := 1024

/-- The macro `SAMPLE_RATE`. -/
def SAMPLE_RATE : Nat := 44100

/-- GStreamer's `GST_SECOND`: one second in nanoseconds. -/
def GST_SECOND : Nat := 1000000000

/-- GLib's `G_MAXUINT64`. -/
def G_MAXUINT64 : Nat := 2 ^ 64 - 1

/-- GStreamer's `gst_util_uint64_scale (val, num, denom)`: `val * num / denom`
rounded down, computed without intermediate overflow, and `G_MAXUINT64` when
the result does not fit 64 bits (or `denom` is 0). -/
def gst_util_uint64_scale (val num denom : Nat) : Nat :=
  if denom = 0 then G_MAXUINT64
  else if val * num / denom ≤ G_MAXUINT64 then val * num / denom
  else G_MAXUINT64

/-- The struct `CustomData` of basic-tutorial-8.  The `gfloat` fields `a`,
`b`, `c`, `d` of the waveform generator are floating point and are left out:
they flow into the sample bytes of the buffer only, never into `num_samples`,
`sourceid`, the buffer times or any branch. -/
structure CustomData where
  pipeline : Option GstElement
  app_source : Option GstElement
  tee : Option GstElement
  audio_queue : Option GstElement
  audio_convert1 : Option GstElement
  audio_resample : Option GstElement
  audio_sink : Option GstElement
  video_queue : Option GstElement
  audio_convert2 : Option GstElement
  visual : Option GstElement
  video_convert : Option GstElement
  video_sink : Option GstElement
  app_queue : Option GstElement
  app_sink : Option GstElement
  num_samples : Nat
  sourceid : Nat
  main_loop : Option Nat
  deriving DecidableEq, Repr

/-- The state the callbacks of basic-tutorial-8 work on: the shared
`CustomData`, GLib's default main context (the ids of the idle sources
attached to it and the last source id it handed out; ids are positive),
whether `g_main_loop_quit` was called, and the calls made so far. -/
structure World where
  data : CustomData
  idle_sources : List Nat
  last_source_id : Nat
  quit : Bool
  calls : List Call
  deriving DecidableEq, Repr

/-- GLib's `g_idle_add`: attaches a new idle source and returns its id, the
next positive id of the main context. -/
def g_idle_add (w : World) : World × Nat :=
  let id := w.last_source_id + 1
  ({ w with idle_sources := w.idle_sources ++ [id],
            last_source_id := id,
            calls := w.calls ++ [Call.g_idle_add id] }, id)

/-- GLib's `g_source_remove (tag)`: detaches the source with that id, if it
is attached. -/
def g_source_remove (tag : Nat) (w : World) : World :=
  { w with idle_sources := w.idle_sources.filter (fun i => i ≠ tag),
           calls := w.calls ++ [Call.g_source_remove tag] }

/-- The buffer `push_data` builds from the current `CustomData`. -/
def push_data_buffer (data : CustomData) : GstBuffer :=
  let num_samples : Nat := CHUNK_SIZE / 2
  { size := CHUNK_SIZE,
    timestamp := gst_util_uint64_scale data.num_samples GST_SECOND SAMPLE_RATE,
    duration := gst_util_uint64_scale num_samples GST_SECOND SAMPLE_RATE }

/-- The function `push_data`; `ret` is the `GstFlowReturn` the `push-buffer`
action signal of the appsrc hands back.  `num_samples` is a `guint64`. -/
def push_data (ret : GstFlowReturn) (w : World) : World × Bool :=
  let num_samples : Nat := CHUNK_SIZE / 2
  let buffer := push_data_buffer w.data
  let data := { w.data with num_samples := (w.data.num_samples + num_samples) % 2 ^ 64 }
  let w1 := { w with data := data,
                     calls := w.calls ++ [Call.gst_buffer_new_and_alloc CHUNK_SIZE,
                       Call.gst_buffer_map_write_unmap,
                       Call.push_buffer buffer,
                       Call.gst_buffer_unref] }
  if ret ≠ GST_FLOW_OK then (w1, false) else (w1, true)

/-- The function `start_feed`; `size` is the hint of the `need-data` signal,
which the function does not read. -/
def start_feed (_size : Nat) (w : World) : World :=
  if w.data.sourceid = 0 then
    let w1 := { w with calls := w.calls ++ [Call.g_print "Start feeding\n" []] }
    let r := g_idle_add w1
    { r.1 with data := { r.1.data with sourceid := r.2 } }
  else w

/-- The function `stop_feed`. -/
def stop_feed (w : World) : World :=
  if w.data.sourceid ≠ 0 then
    let w1 := { w with calls := w.calls ++ [Call.g_print "Stop feeding\n" []] }
    let w2 := g_source_remove w1.data.sourceid w1
    { w2 with data := { w2.data with sourceid := 0 } }
  else w

/-- The function `new_sample`; `sample` is what the `pull-sample` action
signal hands back. -/
def new_sample (sample : Option Nat) (w : World) : World × GstFlowReturn :=
  let w1 := { w with calls := w.calls ++ [Call.pull_sample] }
  match sample with
  | some _ =>
    ({ w1 with calls := w1.calls ++ [Call.g_print "*" [], Call.gst_sample_unref] }, GST_FLOW_OK)
  | none => (w1, GST_FLOW_ERROR)

/-- The function `error_cb`. -/
def error_cb (msg : GstMessage) (w : World) : World :=
  { w with
    calls := w.calls ++ [Call.gst_message_parse_error,
      Call.g_printerr "Error received from element %s: %s\n" [msg.src_name, msg.err_message],
      Call.g_printerr "Debugging information: %sn" [msg.debug_info.getD "none"],
      Call.g_clear_error,
      Call.g_free,
      Call.g_main_loop_quit],
    quit := true }

/-- What the framework delivers while `main` is inside `g_main_loop_run`:
the appsrc signals `need-data` and `enough-data`, the appsink signal
`new-sample`, a message on the pipeline bus, or the dispatch of the idle
source `id` (with the flow return its `push-buffer` will get). -/
inductive Event where
  | need_data (size : Nat)
  | enough_data
  | new_sample (sample : Option Nat)
  | bus_message (msg : GstMessage)
  | idle (id : Nat) (ret : GstFlowReturn)
  deriving DecidableEq, Repr

/-- The handlers `main` registered, run for one event.  The bus signal watch
emits `message::<type>`, and `main` connected a handler to `message::error`
only.  An idle source whose callback returns `FALSE` is detached by the main
loop; the dispatch of an id that is not attached does nothing. -/
def dispatch (ev : Event) (w : World) : World :=
  match ev with
  | Event.need_data size => start_feed size w
  | Event.enough_data => stop_feed w
  | Event.new_sample sample => (new_sample sample w).1
  | Event.bus_message msg =>
    if msg.type = GstMessageType.GST_MESSAGE_ERROR then error_cb msg w else w
  | Event.idle id ret =>
    if id ∈ w.idle_sources then
      let r := push_data ret w
      if r.2 then r.1
      else { r.1 with idle_sources := r.1.idle_sources.filter (fun i => i ≠ id) }
    else w

/-- GLib's `g_main_loop_run` over the events delivered: it returns (second
component `true`) after the event during which `g_main_loop_quit` was called,
and is still running (`false`) when the events end without that. -/
def g_main_loop_run (w : World) : List Event → World × Bool
  | [] => (w, false)
  | ev :: rest =>
    let w1 := dispatch ev w
    if w1.quit then (w1, true) else g_main_loop_run w1 rest

/-- An operand chain `c1 || c2 || ...` of C, where operand `i` makes one call
and is true when that call failed: the calls made (evaluation stops at the
first true operand) and the value of the chain. -/
def or_chain : List (Call × Bool) → List Call × Bool
  | [] => ([], false)
  | (c, failed) :: rest =>
    if failed then ([c], true)
    else ((c :: (or_chain rest).1), (or_chain rest).2)

/-- The framework answers that steer `main`.  The third argument of
`gst_element_get_request_pad` counts the pads requested from the element
before; `last_source_id` is the last source id the default main context has
handed out when `main` enters `g_main_loop_run`. -/
structure Env where
  gst_element_factory_make : String → String → Option GstElement
  gst_pipeline_new : String → Option GstElement
  gst_element_link_many : List (Option GstElement) → Bool
  gst_element_get_request_pad : Option GstElement → String → Nat → Option GstPad
  gst_element_get_static_pad : Option GstElement → String → Option GstPad
  gst_pad_get_name : Option GstPad → String
  gst_pad_link : Option GstPad → Option GstPad → GstPadLinkReturn
  gst_element_get_bus : Option GstElement → Option Nat
  g_main_loop_new : Option Nat
  last_source_id : Nat

/-- The `memset` and the element creation of `main` (lines 121 to 141): the
struct it fills in. -/
def create_elements (env : Env) : CustomData :=
  { app_source := env.gst_element_factory_make "appsrc" "audio_source",
    tee := env.gst_element_factory_make "tee" "tee",
    audio_queue := env.gst_element_factory_make "queue" "audio_queue",
    audio_convert1 := env.gst_element_factory_make "audioconvert" "audio_convert1",
    audio_resample := env.gst_element_factory_make "audioresample" "audio_resample",
    audio_sink := env.gst_element_factory_make "autoaudiosink" "audio_sink",
    video_queue := env.gst_element_factory_make "queue" "video_queue",
    audio_convert2 := env.gst_element_factory_make "audioconvert" "audio_convert2",
    visual := env.gst_element_factory_make "wavescope" "visual",
    video_convert := env.gst_element_factory_make "videoconvert" "video_convert",
    video_sink := env.gst_element_factory_make "autovideosink" "video_sink",
    app_queue := env.gst_element_factory_make "queue" "app_queue",
    app_sink := env.gst_element_factory_make "appsink" "app_sink",
    pipeline := env.gst_pipeline_new "test-pipeline",
    num_samples := 0,
    sourceid := 0,
    main_loop := none }

/-- The calls of the `memset` and the element creation of `main`, in order. -/
def create_calls : List Call :=
  [Call.memset_data,
   Call.gst_init,
   Call.gst_element_factory_make "appsrc" "audio_source",
   Call.gst_element_factory_make "tee" "tee",
   Call.gst_element_factory_make "queue" "audio_queue",
   Call.gst_element_factory_make "audioconvert" "audio_convert1",
   Call.gst_element_factory_make "audioresample" "audio_resample",
   Call.gst_element_factory_make "autoaudiosink" "audio_sink",
   Call.gst_element_factory_make "queue" "video_queue",
   Call.gst_element_factory_make "audioconvert" "audio_convert2",
   Call.gst_element_factory_make "wavescope" "visual",
   Call.gst_element_factory_make "videoconvert" "video_convert",
   Call.gst_element_factory_make "autovideosink" "video_sink",
   Call.gst_element_factory_make "queue" "app_queue",
   Call.gst_element_factory_make "appsink" "app_sink",
   Call.gst_pipeline_new "test-pipeline"]

/-- The configuration calls of `main` between the creation check and the
first link (lines 151 to 166). -/
def configure_calls (data : CustomData) : List Call :=
  [Call.g_object_set data.visual ["shader", "style"],
   Call.gst_audio_info_to_caps,
   Call.g_object_set data.app_source ["caps", "format"],
   Call.g_signal_connect "app_source" "need-data" "start_feed",
   Call.g_signal_connect "app_source" "enough-data" "stop_feed",
   Call.g_object_set data.app_sink ["emit-signals", "caps"],
   Call.g_signal_connect "app_sink" "new-sample" "new_sample",
   Call.gst_caps_unref,
   Call.gst_bin_add_many data.pipeline
     [data.app_source, data.tee, data.audio_queue, data.audio_convert1, data.audio_resample,
      data.audio_sink, data.video_queue, data.audio_convert2, data.visual,
      data.video_convert, data.video_sink, data.app_queue, data.app_sink]]

/-- The four element chains `main` links, in the order of the `||` chain of
line 167. -/
def element_chains (data : CustomData) : List (List (Option GstElement)) :=
  [[data.app_source, data.tee],
   [data.audio_queue, data.audio_convert1, data.audio_resample, data.audio_sink],
   [data.video_queue, data.audio_convert2, data.visual, data.video_convert, data.video_sink],
   [data.app_queue, data.app_sink]]

/-- The calls after `g_main_loop_run` has returned (lines 211 to 220). -/
def teardown_calls (data : CustomData) (tee_audio_pad tee_video_pad tee_app_pad : Option GstPad) :
    List Call :=
  [Call.g_print "request pad released\n" [],
   Call.gst_element_release_request_pad data.tee tee_audio_pad,
   Call.gst_element_release_request_pad data.tee tee_video_pad,
   Call.gst_element_release_request_pad data.tee tee_app_pad,
   Call.gst_object_unref tee_audio_pad,
   Call.gst_object_unref tee_video_pad,
   Call.gst_object_unref tee_app_pad,
   Call.gst_element_set_state data.pipeline GstState.GST_STATE_NULL,
   Call.gst_object_unref data.pipeline]

/-- The function `main` of basic-tutorial-8 run against the framework answers
`env` and the events delivered while it is in `g_main_loop_run`: the calls
made, and the value returned (`none` while `main` is still inside
`g_main_loop_run`). -/
def main (env : Env) (events : List Event) : List Call × Option Int :=
  let data := create_elements env
  let t0 := create_calls
  if data.pipeline = none || data.app_source = none || data.tee = none
      || data.audio_queue = none || data.audio_convert1 = none || data.audio_resample = none
      || data.audio_sink = none || data.video_queue = none || data.audio_convert2 = none
      || data.visual = none || data.video_convert = none || data.video_sink = none
      || data.app_queue = none || data.app_sink = none then
    (t0 ++ [Call.g_printerr "Not all elements could be created.\n" []], some (-1))
  else
    let t1 := t0 ++ configure_calls data
    let links := or_chain ((element_chains data).map
      (fun c => (Call.gst_element_link_many c, env.gst_element_link_many c != true)))
    let t2 := t1 ++ links.1
    if links.2 then
      (t2 ++ [Call.g_printerr "Elements could not be linked.\n" [],
              Call.gst_object_unref data.pipeline], some (-1))
    else
      let tee_audio_pad := env.gst_element_get_request_pad data.tee "src_%u" 0
      let queue_audio_pad := env.gst_element_get_static_pad data.audio_queue "sink"
      let tee_video_pad := env.gst_element_get_request_pad data.tee "src_%u" 1
      let queue_video_pad := env.gst_element_get_static_pad data.video_queue "sink"
      let tee_app_pad := env.gst_element_get_request_pad data.tee "src_%u" 2
      let queue_app_pad := env.gst_element_get_static_pad data.app_queue "sink"
      let t3 := t2 ++
        [Call.gst_element_get_request_pad data.tee "src_%u",
         Call.g_print "Obtained request pad %s for audio branch.\n"
           [env.gst_pad_get_name tee_audio_pad],
         Call.gst_element_get_static_pad data.audio_queue "sink",
         Call.gst_element_get_request_pad data.tee "src_%u",
         Call.g_print "Obtained request pad %s for video branch.\n"
           [env.gst_pad_get_name tee_video_pad],
         Call.gst_element_get_static_pad data.video_queue "sink",
         Call.gst_element_get_request_pad data.tee "src_%u",
         Call.g_print "Obtained request pad %s for app branch.\n"
           [env.gst_pad_get_name tee_app_pad],
         Call.gst_element_get_static_pad data.app_queue "sink"]
      let pad_links := or_chain
        [(Call.gst_pad_link tee_audio_pad queue_audio_pad,
            env.gst_pad_link tee_audio_pad queue_audio_pad != GST_PAD_LINK_OK),
         (Call.gst_pad_link tee_video_pad queue_video_pad,
            env.gst_pad_link tee_video_pad queue_video_pad != GST_PAD_LINK_OK),
         (Call.gst_pad_link tee_app_pad queue_app_pad,
            env.gst_pad_link tee_app_pad queue_app_pad != GST_PAD_LINK_OK)]
      let t4 := t3 ++ pad_links.1
      if pad_links.2 then
        (t4 ++ [Call.g_printerr "Tee could not be linked\n" [],
                Call.gst_object_unref data.pipeline], some (-1))
      else
        let t5 := t4 ++
          [Call.gst_object_unref queue_audio_pad,
           Call.gst_object_unref queue_video_pad,
           Call.gst_object_unref queue_app_pad,
           Call.gst_element_get_bus data.pipeline,
           Call.gst_bus_add_signal_watch,
           Call.g_signal_connect "bus" "message::error" "error_cb",
           Call.gst_object_unref (env.gst_element_get_bus data.pipeline),
           Call.gst_element_set_state data.pipeline GstState.GST_STATE_PLAYING,
           Call.g_main_loop_new,
           Call.g_main_loop_run]
        let data1 := { data with main_loop := env.g_main_loop_new }
        let w0 : World :=
          { data := data1, idle_sources := [], last_source_id := env.last_source_id,
            quit := false, calls := t5 }
        let r := g_main_loop_run w0 events
        if r.2 then
          (r.1.calls ++ teardown_calls r.1.data tee_audio_pad tee_video_pad tee_app_pad, some 0)
        else
          (r.1.calls, none)

end Tutorial8

/-! ## Vocabulary of the statements -/

/-- A call that builds the pipeline graph or starts it: adding elements to a
bin, linking elements or pads, or setting an element to PLAYING. -/
def Call.builds_or_plays : Call → Bool
  | Call.gst_bin_add_many _ _ => true
  | Call.gst_element_link_many _ => true
  | Call.gst_pad_link _ _ => true
  | Call.gst_element_set_state _ GstState.GST_STATE_PLAYING => true
  | _ => false

/-- A call that sets some element to PLAYING. -/
def Call.sets_playing : Call → Bool
  | Call.gst_element_set_state _ GstState.GST_STATE_PLAYING => true
  | _ => false

/-- Some creation call of `main` of basic-tutorial-3 returns `NULL`. -/
def Tutorial3.creation_failed (env : Tutorial3.Env) : Prop :=
  env.gst_pipeline_new "test-pipeline" = none
  ∨ env.gst_element_factory_make "uridecodebin" "source" = none
  ∨ env.gst_element_factory_make "audioconvert" "audio_convert" = none
  ∨ env.gst_element_factory_make "audioresample" "audio_resample" = none
  ∨ env.gst_element_factory_make "autoaudiosink" "audio_sink" = none
  ∨ env.gst_element_factory_make "videoconvert" "video_convert" = none
  ∨ env.gst_element_factory_make "autovideosink" "video_sink" = none

/-- Some creation call of `main` of basic-tutorial-8 returns `NULL`. -/
def Tutorial8.creation_failed (env : Tutorial8.Env) : Prop :=
  env.gst_pipeline_new "test-pipeline" = none
  ∨ env.gst_element_factory_make "appsrc" "audio_source" = none
  ∨ env.gst_element_factory_make "tee" "tee" = none
  ∨ env.gst_element_factory_make "queue" "audio_queue" = none
  ∨ env.gst_element_factory_make "audioconvert" "audio_convert1" = none
  ∨ env.gst_element_factory_make "audioresample" "audio_resample" = none
  ∨ env.gst_element_factory_make "autoaudiosink" "audio_sink" = none
  ∨ env.gst_element_factory_make "queue" "video_queue" = none
  ∨ env.gst_element_factory_make "audioconvert" "audio_convert2" = none
  ∨ env.gst_element_factory_make "wavescope" "visual" = none
  ∨ env.gst_element_factory_make "videoconvert" "video_convert" = none
  ∨ env.gst_element_factory_make "autovideosink" "video_sink" = none
  ∨ env.gst_element_factory_make "queue" "app_queue" = none
  ∨ env.gst_element_factory_make "appsink" "app_sink" = none

/-- The audio chain link of `main` of basic-tutorial-3 (line 47) succeeds. -/
def Tutorial3.audio_linked (env : Tutorial3.Env) : Bool :=
  env.gst_element_link_many
    [(Tutorial3.create_elements env).audio_convert,
     (Tutorial3.create_elements env).audio_resample,
     (Tutorial3.create_elements env).audio_sink]

/-- The video chain link of `main` of basic-tutorial-3 (line 53) succeeds. -/
def Tutorial3.video_linked (env : Tutorial3.Env) : Bool :=
  env.gst_element_link_many
    [(Tutorial3.create_elements env).video_convert,
     (Tutorial3.create_elements env).video_sink]

/-- Each of the four `gst_element_link_many` chains of `main` of
basic-tutorial-8 succeeds. -/
def Tutorial8.chains_linked (env : Tutorial8.Env) : Bool :=
  (Tutorial8.element_chains (Tutorial8.create_elements env)).all
    (fun c => env.gst_element_link_many c)

/-- Each of the three tee request-pad links of `main` of basic-tutorial-8
returns `GST_PAD_LINK_OK`. -/
def Tutorial8.tee_pads_linked (env : Tutorial8.Env) : Bool :=
  let data := Tutorial8.create_elements env
  decide (env.gst_pad_link (env.gst_element_get_request_pad data.tee "src_%u" 0)
      (env.gst_element_get_static_pad data.audio_queue "sink") = GST_PAD_LINK_OK)
  && decide (env.gst_pad_link (env.gst_element_get_request_pad data.tee "src_%u" 1)
      (env.gst_element_get_static_pad data.video_queue "sink") = GST_PAD_LINK_OK)
  && decide (env.gst_pad_link (env.gst_element_get_request_pad data.tee "src_%u" 2)
      (env.gst_element_get_static_pad data.app_queue "sink") = GST_PAD_LINK_OK)

/-- The three operands of the `||` chain of tee pad links (line 189). -/
def Tutorial8.pad_link_ops (env : Tutorial8.Env) : List (Call × Bool) :=
  let data := Tutorial8.create_elements env
  let tee_audio_pad := env.gst_element_get_request_pad data.tee "src_%u" 0
  let queue_audio_pad := env.gst_element_get_static_pad data.audio_queue "sink"
  let tee_video_pad := env.gst_element_get_request_pad data.tee "src_%u" 1
  let queue_video_pad := env.gst_element_get_static_pad data.video_queue "sink"
  let tee_app_pad := env.gst_element_get_request_pad data.tee "src_%u" 2
  let queue_app_pad := env.gst_element_get_static_pad data.app_queue "sink"
  [(Call.gst_pad_link tee_audio_pad queue_audio_pad,
      env.gst_pad_link tee_audio_pad queue_audio_pad != GST_PAD_LINK_OK),
   (Call.gst_pad_link tee_video_pad queue_video_pad,
      env.gst_pad_link tee_video_pad queue_video_pad != GST_PAD_LINK_OK),
   (Call.gst_pad_link tee_app_pad queue_app_pad,
      env.gst_pad_link tee_app_pad queue_app_pad != GST_PAD_LINK_OK)]

/-- The calls of `main` that get the six pads (lines 180 to 188). -/
def Tutorial8.request_calls (env : Tutorial8.Env) : List Call :=
  let data := Tutorial8.create_elements env
  [Call.gst_element_get_request_pad data.tee "src_%u",
   Call.g_print "Obtained request pad %s for audio branch.\n"
     [env.gst_pad_get_name (env.gst_element_get_request_pad data.tee "src_%u" 0)],
   Call.gst_element_get_static_pad data.audio_queue "sink",
   Call.gst_element_get_request_pad data.tee "src_%u",
   Call.g_print "Obtained request pad %s for video branch.\n"
     [env.gst_pad_get_name (env.gst_element_get_request_pad data.tee "src_%u" 1)],
   Call.gst_element_get_static_pad data.video_queue "sink",
   Call.gst_element_get_request_pad data.tee "src_%u",
   Call.g_print "Obtained request pad %s for app branch.\n"
     [env.gst_pad_get_name (env.gst_element_get_request_pad data.tee "src_%u" 2)],
   Call.gst_element_get_static_pad data.app_queue "sink"]

/-- Concrete framework answers for basic-tutorial-3: every creation succeeds
except the factory named `missing`, and the two chains link as `audio_ok` and
`video_ok` say. -/
def env3 (missing : String) (audio_ok video_ok : Bool) : Tutorial3.Env :=
  { gst_element_factory_make := fun f _ => if f = missing then none else some f.length,
    gst_pipeline_new := fun _ => some 1,
    gst_element_link_many := fun c => if c.length = 3 then audio_ok else video_ok,
    gst_element_set_state := fun _ _ => GstStateChangeReturn.GST_STATE_CHANGE_ASYNC }

/-- Concrete framework answers for basic-tutorial-8: every creation succeeds
except the factory named `missing`, the element chain of length `bad_chain`
fails to link, and the tee pad number `bad_pad` fails to link. -/
def env8 (missing : String) (bad_chain : Nat) (bad_pad : Nat) : Tutorial8.Env :=
  { gst_element_factory_make := fun f n => if f = missing then none else some (f.length + n.length),
    gst_pipeline_new := fun _ => some 1,
    gst_element_link_many := fun c => decide (c.length ≠ bad_chain),
    gst_element_get_request_pad := fun _ _ k => some (100 + k),
    gst_element_get_static_pad := fun e _ => e.map (fun x => 200 + x),
    gst_pad_get_name := fun _ => "src",
    gst_pad_link := fun a _ => if a = some (100 + bad_pad) then -6 else 0,
    gst_element_get_bus := fun _ => some 300,
    g_main_loop_new := some 400,
    last_source_id := 1 }

/-- A call of `gst_pad_link`. -/
def Call.is_pad_link : Call → Bool
  | Call.gst_pad_link _ _ => true
  | _ => false

/-- A call of `gst_element_get_static_pad`. -/
def Call.is_get_static_pad : Call → Bool
  | Call.gst_element_get_static_pad _ _ => true
  | _ => false

/-- The media type `pad_added_handler` reads off the new pad: the name of the
first structure of its current caps. -/
def Tutorial3.new_pad_type (gst : Tutorial3.Gst) (new_pad : GstPad) : Option String :=
  gst_structure_get_name (gst_caps_get_structure (gst.gst_pad_get_current_caps new_pad) 0)

/-- The message ends the loop of `main` of basic-tutorial-3: its type is
`GST_MESSAGE_ERROR` or `GST_MESSAGE_EOS`. -/
def GstMessage.is_error_or_eos (m : GstMessage) : Bool :=
  decide (m.type = GstMessageType.GST_MESSAGE_ERROR)
    || decide (m.type = GstMessageType.GST_MESSAGE_EOS)

/-- The events of a sequence of non-`NULL` messages popped from the bus. -/
def Tutorial3.pops (msgs : List GstMessage) : List Tutorial3.Event :=
  msgs.map (fun m => Tutorial3.Event.bus_pop (some m))

/-- A concrete message of the given type from the object `src`. -/
def msg_of (type : GstMessageType) (src : Nat) : GstMessage :=
  { type := type, src := src, src_name := "element", err_message := "failure",
    debug_info := none, old_state := GstState.GST_STATE_READY,
    new_state := GstState.GST_STATE_PAUSED }

/-- Concrete framework answers for one `pad-added` callback: the new pad has
caps of media type `type`, the static sink pad of element `e` is pad `e + 50`,
sink pads are linked as `linked` says, and `gst_pad_link` returns `ret`. -/
def gst_with (type : String) (linked : Bool) (ret : GstPadLinkReturn) : Tutorial3.Gst :=
  { object_name := fun _ => "name",
    gst_pad_get_current_caps := fun _ => some { structures := [{ name := type }] },
    gst_element_get_static_pad := fun e _ => e.map (fun x => x + 50),
    gst_pad_is_linked := fun _ => linked,
    gst_pad_link := fun _ _ => ret }

/-- A concrete `CustomData` of basic-tutorial-3 with all seven elements. -/
def data3 : Tutorial3.CustomData :=
  { pipeline := some 1, source := some 2, audio_convert := some 3, audio_resample := some 4,
    audio_sink := some 5, video_convert := some 6, video_sink := some 7 }

/-- All elements of basic-tutorial-8 were created and all its links
succeeded, so that `main` reaches `g_main_loop_run`. -/
def Tutorial8.setup_ok (env : Tutorial8.Env) : Prop :=
  ¬ Tutorial8.creation_failed env
    ∧ Tutorial8.chains_linked env = true
    ∧ Tutorial8.tee_pads_linked env = true

/-- The event is an error message on the pipeline bus. -/
def Tutorial8.Event.is_error : Tutorial8.Event → Bool
  | Tutorial8.Event.bus_message msg => decide (msg.type = GstMessageType.GST_MESSAGE_ERROR)
  | _ => false

/-- The calls `error_cb` makes for the message `msg`. -/
def Tutorial8.error_cb_calls (msg : GstMessage) : List Call :=
  [Call.gst_message_parse_error,
   Call.g_printerr "Error received from element %s: %s\n" [msg.src_name, msg.err_message],
   Call.g_printerr "Debugging information: %sn" [msg.debug_info.getD "none"],
   Call.g_clear_error,
   Call.g_free,
   Call.g_main_loop_quit]

/-- The world in which `main` of basic-tutorial-8 enters `g_main_loop_run`
when the setup succeeded: the struct as created, with `main_loop` set, nothing
fed, no idle source, and all calls of the setup made. -/
def Tutorial8.entry_world (env : Tutorial8.Env) : Tutorial8.World :=
  let data := Tutorial8.create_elements env
  { data := { data with main_loop := env.g_main_loop_new },
    idle_sources := [],
    last_source_id := env.last_source_id,
    quit := false,
    calls := Tutorial8.create_calls ++ Tutorial8.configure_calls data
      ++ (Tutorial8.or_chain ((Tutorial8.element_chains data).map
          (fun c => (Call.gst_element_link_many c, env.gst_element_link_many c != true)))).1
      ++ Tutorial8.request_calls env ++ (Tutorial8.or_chain (Tutorial8.pad_link_ops env)).1
      ++ [Call.gst_object_unref (env.gst_element_get_static_pad data.audio_queue "sink"),
          Call.gst_object_unref (env.gst_element_get_static_pad data.video_queue "sink"),
          Call.gst_object_unref (env.gst_element_get_static_pad data.app_queue "sink"),
          Call.gst_element_get_bus data.pipeline,
          Call.gst_bus_add_signal_watch,
          Call.g_signal_connect "bus" "message::error" "error_cb",
          Call.gst_object_unref (env.gst_element_get_bus data.pipeline),
          Call.gst_element_set_state data.pipeline GstState.GST_STATE_PLAYING,
          Call.g_main_loop_new,
          Call.g_main_loop_run] }

/-- A call that attaches or detaches a main-context source. -/
def Call.is_source_call : Call → Bool
  | Call.g_idle_add _ => true
  | Call.g_source_remove _ => true
  | _ => false

/-- The feeder bookkeeping that survives every handler: the idle sources
attached are none, or the one whose id `sourceid` holds (then not 0); and
`sourceid` is an id the main context has handed out, or 0. -/
def Tutorial8.feeder_registered_at_most_once (w : Tutorial8.World) : Prop :=
  (w.idle_sources = [] ∨ (w.data.sourceid ≠ 0 ∧ w.idle_sources = [w.data.sourceid]))
    ∧ w.data.sourceid ≤ w.last_source_id

/-- The world after `push_data` was called once for each flow return of
`rets`, in order. -/
def Tutorial8.feed (rets : List GstFlowReturn) (w : Tutorial8.World) : Tutorial8.World :=
  rets.foldl (fun w r => (Tutorial8.push_data r w).1) w

/-- A concrete world of basic-tutorial-8 as it is when `main` enters
`g_main_loop_run`: nothing fed yet, no idle source attached, the bus watch
holding source id 1. -/
def world8 : Tutorial8.World :=
  { data := { Tutorial8.create_elements (env8 "" 0 9) with main_loop := some 400 },
    idle_sources := [], last_source_id := 1, quit := false, calls := [] }

/-! ## Theorems -/

namespace Tutorial3

/-- When a creation call fails, `main` of basic-tutorial-3 stops right after
the check. -/
theorem main_of_creation_failed_t3 (env : Env) (events : List Event) (h : creation_failed env) :
    main env events =
      (create_calls ++ [Call.g_printerr "Not all elements could be created.\n" []], some (-1)) := by
  unfold creation_failed at h
  unfold main
  rw [if_pos]
  simp only [create_elements, Bool.or_eq_true, decide_eq_true_eq]
  tauto

end Tutorial3

namespace Tutorial8

/-- When a creation call fails, `main` of basic-tutorial-8 stops right after
the check. -/
theorem main_of_creation_failed_t8 (env : Env) (events : List Event) (h : creation_failed env) :
    main env events =
      (create_calls ++ [Call.g_printerr "Not all elements could be created.\n" []], some (-1)) := by
  unfold creation_failed at h
  unfold main
  rw [if_pos]
  simp only [create_elements, Bool.or_eq_true, decide_eq_true_eq]
  tauto

end Tutorial8

/-- C1: in both programs, whenever some element factory call or
`gst_pipeline_new` returns `NULL`, `main` returns -1, the last thing it does is
print "Not all elements could be created.", and it has made no call that adds
elements to the pipeline, links elements or pads, or sets PLAYING (whatever the
framework would deliver afterwards). -/
theorem C1_creation_failure_stops_main
    (e3 : Tutorial3.Env) (ev3 : List Tutorial3.Event)
    (e8 : Tutorial8.Env) (ev8 : List Tutorial8.Event) :
    (Tutorial3.creation_failed e3 →
      (Tutorial3.main e3 ev3).2 = some (-1)
      ∧ (Tutorial3.main e3 ev3).1.getLast?
          = some (Call.g_printerr "Not all elements could be created.\n" [])
      ∧ ∀ c ∈ (Tutorial3.main e3 ev3).1, c.builds_or_plays = false)
    ∧ (Tutorial8.creation_failed e8 →
      (Tutorial8.main e8 ev8).2 = some (-1)
      ∧ (Tutorial8.main e8 ev8).1.getLast?
          = some (Call.g_printerr "Not all elements could be created.\n" [])
      ∧ ∀ c ∈ (Tutorial8.main e8 ev8).1, c.builds_or_plays = false) := by
  constructor
  · intro h
    rw [Tutorial3.main_of_creation_failed_t3 e3 ev3 h]
    refine ⟨rfl, by decide, by decide⟩
  · intro h
    rw [Tutorial8.main_of_creation_failed_t8 e8 ev8 h]
    refine ⟨rfl, by decide, by decide⟩

/-- C1 at concrete inputs: the video sink factory is missing in tutorial 3 and
the `wavescope` factory is missing in tutorial 8. -/
theorem C1_creation_failure_stops_main_witness :
    ((Tutorial3.main (env3 "autovideosink" true true) []).2 = some (-1)
      ∧ (Tutorial3.main (env3 "autovideosink" true true) []).1.getLast?
          = some (Call.g_printerr "Not all elements could be created.\n" [])
      ∧ ∀ c ∈ (Tutorial3.main (env3 "autovideosink" true true) []).1, c.builds_or_plays = false)
    ∧ ((Tutorial8.main (env8 "wavescope" 0 9) []).2 = some (-1)
      ∧ (Tutorial8.main (env8 "wavescope" 0 9) []).1.getLast?
          = some (Call.g_printerr "Not all elements could be created.\n" [])
      ∧ ∀ c ∈ (Tutorial8.main (env8 "wavescope" 0 9) []).1, c.builds_or_plays = false) :=
  ⟨(C1_creation_failure_stops_main (env3 "autovideosink" true true) []
      (env8 "wavescope" 0 9) []).1 (by unfold Tutorial3.creation_failed; decide),
   (C1_creation_failure_stops_main (env3 "autovideosink" true true) []
      (env8 "wavescope" 0 9) []).2 (by unfold Tutorial8.creation_failed; decide)⟩

namespace Tutorial3

/-- The creation check of `main` passes when no creation call failed. -/
theorem creation_check_false_t3 (env : Env) (h : ¬ creation_failed env) :
    ((create_elements env).pipeline = none || (create_elements env).source = none
      || (create_elements env).audio_convert = none
      || (create_elements env).audio_resample = none
      || (create_elements env).audio_sink = none
      || (create_elements env).video_convert = none
      || (create_elements env).video_sink = none) = false := by
  unfold creation_failed at h
  simp only [create_elements, Bool.or_eq_false_iff, decide_eq_false_iff_not]
  tauto

/-- With all elements created and the audio chain not linked, `main` prints the
audio diagnostic, drops the pipeline and returns -1. -/
theorem main_of_audio_link_failed (env : Env) (events : List Event)
    (h : ¬ creation_failed env) (ha : audio_linked env = false) :
    main env events =
      (create_calls ++
        [Call.gst_bin_add_many (create_elements env).pipeline
          [(create_elements env).source, (create_elements env).audio_convert,
           (create_elements env).audio_resample, (create_elements env).audio_sink,
           (create_elements env).video_convert, (create_elements env).video_sink],
         Call.gst_element_link_many
          [(create_elements env).audio_convert, (create_elements env).audio_resample,
           (create_elements env).audio_sink],
         Call.g_printerr "Audio elements could not be linked.\n" [],
         Call.gst_object_unref (create_elements env).pipeline], some (-1)) := by
  unfold audio_linked at ha
  unfold main
  simp only [creation_check_false_t3 env h, ha]
  simp

/-- With all elements created, the audio chain linked and the video chain not
linked, `main` prints the video diagnostic, drops the pipeline and returns
-1. -/
theorem main_of_video_link_failed (env : Env) (events : List Event)
    (h : ¬ creation_failed env) (ha : audio_linked env = true) (hv : video_linked env = false) :
    main env events =
      (create_calls ++
        [Call.gst_bin_add_many (create_elements env).pipeline
          [(create_elements env).source, (create_elements env).audio_convert,
           (create_elements env).audio_resample, (create_elements env).audio_sink,
           (create_elements env).video_convert, (create_elements env).video_sink],
         Call.gst_element_link_many
          [(create_elements env).audio_convert, (create_elements env).audio_resample,
           (create_elements env).audio_sink],
         Call.gst_element_link_many
          [(create_elements env).video_convert, (create_elements env).video_sink],
         Call.g_printerr "Video elements could not be linked.\n" [],
         Call.gst_object_unref (create_elements env).pipeline], some (-1)) := by
  unfold audio_linked at ha
  unfold video_linked at hv
  unfold main
  simp only [creation_check_false_t3 env h, ha, hv]
  simp

/-- No creation call sets an element to PLAYING. -/
theorem create_calls_not_playing_t3 : ∀ c ∈ create_calls, c.sets_playing = false := by decide

end Tutorial3

namespace Tutorial8

/-- The creation check of `main` passes when no creation call failed. -/
theorem creation_check_false_t8 (env : Env) (h : ¬ creation_failed env) :
    ((create_elements env).pipeline = none || (create_elements env).app_source = none
      || (create_elements env).tee = none || (create_elements env).audio_queue = none
      || (create_elements env).audio_convert1 = none
      || (create_elements env).audio_resample = none
      || (create_elements env).audio_sink = none || (create_elements env).video_queue = none
      || (create_elements env).audio_convert2 = none || (create_elements env).visual = none
      || (create_elements env).video_convert = none || (create_elements env).video_sink = none
      || (create_elements env).app_queue = none || (create_elements env).app_sink = none)
      = false := by
  unfold creation_failed at h
  simp only [create_elements, Bool.or_eq_false_iff, decide_eq_false_iff_not]
  tauto

/-- The value of an `||` chain is true exactly when some operand is. -/
theorem or_chain_snd (ops : List (Call × Bool)) :
    (or_chain ops).2 = ops.any (fun x => x.2) := by
  induction ops with
  | nil => rfl
  | cons x rest ih =>
    obtain ⟨c, failed⟩ := x
    cases failed <;> simp [or_chain, ih]

/-- An `||` chain makes only calls of its operands. -/
theorem or_chain_fst_mem (ops : List (Call × Bool)) :
    ∀ c ∈ (or_chain ops).1, c ∈ ops.map Prod.fst := by
  induction ops with
  | nil => simp [or_chain]
  | cons x rest ih =>
    obtain ⟨c0, failed⟩ := x
    intro c hc
    cases failed
    · simp only [or_chain, Bool.false_eq_true, if_false, List.mem_cons] at hc
      rcases hc with hc | hc
      · simp [hc]
      · have := ih c hc
        simp only [List.map_cons, List.mem_cons]
        exact Or.inr this
    · simp only [or_chain, if_true, List.mem_singleton] at hc
      simp [hc]

/-- The `||` chain over the four element chains is true exactly when not all
of them linked. -/
theorem chain_links_failed_iff (env : Env) :
    (or_chain ((element_chains (create_elements env)).map
      (fun c => (Call.gst_element_link_many c, env.gst_element_link_many c != true)))).2
      = !chains_linked env := by
  rw [or_chain_snd]
  simp only [chains_linked, element_chains, List.map_cons, List.map_nil, List.any_cons,
    List.any_nil, List.all_cons, List.all_nil, Bool.or_false, Bool.and_true, Bool.not_and]
  cases env.gst_element_link_many _ <;> cases env.gst_element_link_many _ <;>
    cases env.gst_element_link_many _ <;> cases env.gst_element_link_many _ <;> rfl

/-- No creation call sets an element to PLAYING. -/
theorem create_calls_not_playing_t8 : ∀ c ∈ create_calls, c.sets_playing = false := by decide

/-- No configuration call sets an element to PLAYING. -/
theorem configure_calls_not_playing (data : CustomData) :
    ∀ c ∈ configure_calls data, c.sets_playing = false := by
  intro c hc
  simp only [configure_calls, List.mem_cons, List.mem_singleton, List.not_mem_nil,
    or_false] at hc
  rcases hc with h | h | h | h | h | h | h | h | h <;> subst h <;> rfl

/-- No call of an `||` chain of element links sets an element to PLAYING. -/
theorem chain_calls_not_playing (env : Env) (chains : List (List (Option GstElement))) :
    ∀ c ∈ (or_chain (chains.map
      (fun c => (Call.gst_element_link_many c, env.gst_element_link_many c != true)))).1,
      c.sets_playing = false := by
  intro c hc
  have h := or_chain_fst_mem _ c hc
  simp only [List.map_map, List.mem_map, Function.comp] at h
  obtain ⟨x, _, hx⟩ := h
  subst hx
  rfl

/-- With all elements created and some element chain not linked, `main`
prints the diagnostic, drops the pipeline and returns -1, without a PLAYING
call. -/
theorem main_of_chain_failed (env : Env) (events : List Event)
    (h : ¬ creation_failed env) (hc : chains_linked env = false) :
    (main env events).2 = some (-1)
    ∧ Call.g_printerr "Elements could not be linked.\n" [] ∈ (main env events).1
    ∧ ∀ c ∈ (main env events).1, c.sets_playing = false := by
  have hl := chain_links_failed_iff env
  rw [hc] at hl
  have hm : main env events =
      (create_calls ++ configure_calls (create_elements env)
        ++ (or_chain ((element_chains (create_elements env)).map
          (fun c => (Call.gst_element_link_many c, env.gst_element_link_many c != true)))).1
        ++ [Call.g_printerr "Elements could not be linked.\n" [],
            Call.gst_object_unref (create_elements env).pipeline], some (-1)) := by
    unfold main
    simp only [creation_check_false_t8 env h, hl]
    simp
  rw [hm]
  refine ⟨rfl, by simp, ?_⟩
  intro c hc
  simp only [List.mem_append, List.mem_cons, List.mem_singleton, List.not_mem_nil,
    or_false] at hc
  rcases hc with ((hc | hc) | hc) | hc | hc
  · exact create_calls_not_playing_t8 c hc
  · exact configure_calls_not_playing _ c hc
  · exact chain_calls_not_playing env _ c hc
  · subst hc; rfl
  · subst hc; rfl

/-- The `||` chain over the three tee pad links is true exactly when not all
of them returned `GST_PAD_LINK_OK`. -/
theorem pad_links_failed_iff (env : Env) :
    (or_chain (pad_link_ops env)).2 = !tee_pads_linked env := by
  rw [or_chain_snd]
  simp only [pad_link_ops, tee_pads_linked, List.any_cons, List.any_nil, Bool.or_false,
    Bool.not_and, bne, Bool.or_assoc]
  simp only [BEq.beq, decide_eq_true_eq]

/-- No call that gets a pad sets an element to PLAYING. -/
theorem request_calls_not_playing (env : Env) :
    ∀ c ∈ request_calls env, c.sets_playing = false := by
  intro c hc
  simp only [request_calls, List.mem_cons, List.mem_singleton, List.not_mem_nil,
    or_false] at hc
  rcases hc with h | h | h | h | h | h | h | h | h <;> subst h <;> rfl

/-- No call of the `||` chain of tee pad links sets an element to PLAYING. -/
theorem pad_link_calls_not_playing (env : Env) :
    ∀ c ∈ (or_chain (pad_link_ops env)).1, c.sets_playing = false := by
  intro c hc
  have h := or_chain_fst_mem _ c hc
  simp only [pad_link_ops, List.map_cons, List.map_nil, List.mem_cons, List.mem_singleton,
    List.not_mem_nil, or_false] at h
  rcases h with h | h | h <;> subst h <;> rfl

/-- With all elements created, all element chains linked and some tee pad not
linked, `main` prints the diagnostic, drops the pipeline and returns -1,
without a PLAYING call. -/
theorem main_of_tee_failed (env : Env) (events : List Event)
    (h : ¬ creation_failed env) (hc : chains_linked env = true)
    (hp : tee_pads_linked env = false) :
    (main env events).2 = some (-1)
    ∧ Call.g_printerr "Tee could not be linked\n" [] ∈ (main env events).1
    ∧ ∀ c ∈ (main env events).1, c.sets_playing = false := by
  have hl := chain_links_failed_iff env
  rw [hc] at hl
  have hq := pad_links_failed_iff env
  rw [hp] at hq
  have hm : main env events =
      (create_calls ++ configure_calls (create_elements env)
        ++ (or_chain ((element_chains (create_elements env)).map
          (fun c => (Call.gst_element_link_many c, env.gst_element_link_many c != true)))).1
        ++ request_calls env ++ (or_chain (pad_link_ops env)).1
        ++ [Call.g_printerr "Tee could not be linked\n" [],
            Call.gst_object_unref (create_elements env).pipeline], some (-1)) := by
    unfold pad_link_ops at hq
    unfold main
    simp only [creation_check_false_t8 env h, hl, hq]
    simp [request_calls, pad_link_ops]
  rw [hm]
  refine ⟨rfl, by simp, ?_⟩
  intro c hc
  simp only [List.mem_append, List.mem_cons, List.mem_singleton, List.not_mem_nil,
    or_false] at hc
  rcases hc with ((((hc | hc) | hc) | hc) | hc) | hc | hc
  · exact create_calls_not_playing_t8 c hc
  · exact configure_calls_not_playing _ c hc
  · exact chain_calls_not_playing env _ c hc
  · exact request_calls_not_playing env c hc
  · exact pad_link_calls_not_playing env c hc
  · subst hc; rfl
  · subst hc; rfl

end Tutorial8

/-- C2: in both programs, with all elements created, a failed link makes
`main` print the diagnostic of that link and return -1 with no call that sets
PLAYING: in tutorial 3 the audio chain, or (the audio chain linked) the video
chain; in tutorial 8 one of the four element chains, or (the chains linked) one
of the three tee pad links.  Conversely a call that sets PLAYING occurs only
when every one of these links succeeded. -/
theorem C2_link_failure_stops_main
    (e3 : Tutorial3.Env) (ev3 : List Tutorial3.Event)
    (e8 : Tutorial8.Env) (ev8 : List Tutorial8.Event) :
    (¬ Tutorial3.creation_failed e3 →
      (Tutorial3.audio_linked e3 = false →
        (Tutorial3.main e3 ev3).2 = some (-1)
        ∧ Call.g_printerr "Audio elements could not be linked.\n" [] ∈ (Tutorial3.main e3 ev3).1
        ∧ ∀ c ∈ (Tutorial3.main e3 ev3).1, c.sets_playing = false)
      ∧ (Tutorial3.audio_linked e3 = true → Tutorial3.video_linked e3 = false →
        (Tutorial3.main e3 ev3).2 = some (-1)
        ∧ Call.g_printerr "Video elements could not be linked.\n" [] ∈ (Tutorial3.main e3 ev3).1
        ∧ ∀ c ∈ (Tutorial3.main e3 ev3).1, c.sets_playing = false)
      ∧ ((∃ c ∈ (Tutorial3.main e3 ev3).1, c.sets_playing = true) →
        Tutorial3.audio_linked e3 = true ∧ Tutorial3.video_linked e3 = true))
    ∧ (¬ Tutorial8.creation_failed e8 →
      (Tutorial8.chains_linked e8 = false →
        (Tutorial8.main e8 ev8).2 = some (-1)
        ∧ Call.g_printerr "Elements could not be linked.\n" [] ∈ (Tutorial8.main e8 ev8).1
        ∧ ∀ c ∈ (Tutorial8.main e8 ev8).1, c.sets_playing = false)
      ∧ (Tutorial8.chains_linked e8 = true → Tutorial8.tee_pads_linked e8 = false →
        (Tutorial8.main e8 ev8).2 = some (-1)
        ∧ Call.g_printerr "Tee could not be linked\n" [] ∈ (Tutorial8.main e8 ev8).1
        ∧ ∀ c ∈ (Tutorial8.main e8 ev8).1, c.sets_playing = false)
      ∧ ((∃ c ∈ (Tutorial8.main e8 ev8).1, c.sets_playing = true) →
        Tutorial8.chains_linked e8 = true ∧ Tutorial8.tee_pads_linked e8 = true)) := by
  have notPlaying3 : ∀ (t : List Call), (∀ c ∈ t, c.sets_playing = false) →
      ¬ ∃ c ∈ t, c.sets_playing = true := by
    intro t ht ⟨c, hc, hp⟩
    rw [ht c hc] at hp
    exact Bool.false_ne_true hp
  constructor
  · intro h
    have audioCase : Tutorial3.audio_linked e3 = false →
        (Tutorial3.main e3 ev3).2 = some (-1)
        ∧ Call.g_printerr "Audio elements could not be linked.\n" [] ∈ (Tutorial3.main e3 ev3).1
        ∧ ∀ c ∈ (Tutorial3.main e3 ev3).1, c.sets_playing = false := by
      intro ha
      rw [Tutorial3.main_of_audio_link_failed e3 ev3 h ha]
      refine ⟨rfl, by simp, ?_⟩
      intro c hc
      simp only [List.mem_append, List.mem_cons, List.mem_singleton, List.not_mem_nil,
        or_false] at hc
      rcases hc with hc | hc | hc | hc | hc
      · exact Tutorial3.create_calls_not_playing_t3 c hc
      all_goals subst hc; rfl
    have videoCase : Tutorial3.audio_linked e3 = true → Tutorial3.video_linked e3 = false →
        (Tutorial3.main e3 ev3).2 = some (-1)
        ∧ Call.g_printerr "Video elements could not be linked.\n" [] ∈ (Tutorial3.main e3 ev3).1
        ∧ ∀ c ∈ (Tutorial3.main e3 ev3).1, c.sets_playing = false := by
      intro ha hv
      rw [Tutorial3.main_of_video_link_failed e3 ev3 h ha hv]
      refine ⟨rfl, by simp, ?_⟩
      intro c hc
      simp only [List.mem_append, List.mem_cons, List.mem_singleton, List.not_mem_nil,
        or_false] at hc
      rcases hc with hc | hc | hc | hc | hc | hc
      · exact Tutorial3.create_calls_not_playing_t3 c hc
      all_goals subst hc; rfl
    refine ⟨audioCase, videoCase, ?_⟩
    intro hp
    cases ha : Tutorial3.audio_linked e3
    · exact absurd hp (notPlaying3 _ (audioCase ha).2.2)
    · cases hv : Tutorial3.video_linked e3
      · exact absurd hp (notPlaying3 _ (videoCase ha hv).2.2)
      · exact ⟨rfl, rfl⟩
  · intro h
    refine ⟨Tutorial8.main_of_chain_failed e8 ev8 h, Tutorial8.main_of_tee_failed e8 ev8 h, ?_⟩
    intro hp
    cases hc : Tutorial8.chains_linked e8
    · exact absurd hp (notPlaying3 _ (Tutorial8.main_of_chain_failed e8 ev8 h hc).2.2)
    · cases ht : Tutorial8.tee_pads_linked e8
      · exact absurd hp (notPlaying3 _ (Tutorial8.main_of_tee_failed e8 ev8 h hc ht).2.2)
      · exact ⟨rfl, rfl⟩

/-- C2 at concrete inputs: in tutorial 3 the video chain fails to link; in
tutorial 8 the second tee pad link is refused. -/
theorem C2_link_failure_stops_main_witness :
    ((Tutorial3.main (env3 "" true false) []).2 = some (-1)
      ∧ Call.g_printerr "Video elements could not be linked.\n" []
          ∈ (Tutorial3.main (env3 "" true false) []).1
      ∧ ∀ c ∈ (Tutorial3.main (env3 "" true false) []).1, c.sets_playing = false)
    ∧ ((Tutorial8.main (env8 "" 0 1) []).2 = some (-1)
      ∧ Call.g_printerr "Tee could not be linked\n" [] ∈ (Tutorial8.main (env8 "" 0 1) []).1
      ∧ ∀ c ∈ (Tutorial8.main (env8 "" 0 1) []).1, c.sets_playing = false) :=
  ⟨((C2_link_failure_stops_main (env3 "" true false) [] (env8 "" 0 1) []).1
      (by unfold Tutorial3.creation_failed; decide)).2.1 (by decide) (by decide),
   ((C2_link_failure_stops_main (env3 "" true false) [] (env8 "" 0 1) []).2
      (by unfold Tutorial8.creation_failed; decide)).2.1 (by decide) (by decide)⟩

namespace Tutorial3

/-- One pass through the loop body sets `terminate` exactly for an ERROR or
EOS message. -/
theorem loop_body_terminate (data : CustomData) (m : GstMessage) :
    (loop_body data false (some m)).2 = m.is_error_or_eos := by
  unfold loop_body GstMessage.is_error_or_eos
  cases h : m.type <;> simp only [h] <;> try rfl
  split <;> rfl

/-- A `pad-added` callback does not change whether and when the loop of
`main` is left. -/
theorem bus_loop_pad_added (data : CustomData) (terminate : Bool) (gst : Gst)
    (src : GstElement) (new_pad : GstPad) (rest : List Event) :
    (bus_loop data terminate (Event.pad_added gst src new_pad :: rest)).exited
      = (bus_loop data terminate rest).exited
    ∧ (bus_loop data terminate (Event.pad_added gst src new_pad :: rest)).terminate
      = (bus_loop data terminate rest).terminate := by
  simp [bus_loop]

/-- The events of a message sequence, one message at a time. -/
theorem pops_cons (x : GstMessage) (rest : List GstMessage) :
    pops (x :: rest) = Event.bus_pop (some x) :: pops rest := rfl

/-- A popped message that leaves `terminate` false sends the loop round
again. -/
theorem bus_loop_continue (data : CustomData) (x : GstMessage) (rest : List Event)
    (h : (loop_body data false (some x)).2 = false) :
    bus_loop data false (Event.bus_pop (some x) :: rest) =
      { calls := (loop_body data false (some x)).1 ++ (bus_loop data false rest).calls,
        terminate := (bus_loop data false rest).terminate,
        exited := (bus_loop data false rest).exited,
        consumed := (bus_loop data false rest).consumed + 1 } := by
  simp [bus_loop, h]

/-- A popped message that sets `terminate` ends the loop. -/
theorem bus_loop_stop (data : CustomData) (x : GstMessage) (rest : List Event)
    (h : (loop_body data false (some x)).2 = true) :
    bus_loop data false (Event.bus_pop (some x) :: rest) =
      { calls := (loop_body data false (some x)).1, terminate := true, exited := true,
        consumed := 1 } := by
  simp [bus_loop, h]

/-- Over messages none of which is ERROR or EOS the loop consumes them all and
stays in the loop. -/
theorem bus_loop_no_final (data : CustomData) (msgs : List GstMessage)
    (h : ∀ x ∈ msgs, x.is_error_or_eos = false) :
    (bus_loop data false (pops msgs)).exited = false
    ∧ (bus_loop data false (pops msgs)).terminate = false
    ∧ (bus_loop data false (pops msgs)).consumed = msgs.length := by
  induction msgs with
  | nil => simp [pops, bus_loop]
  | cons x rest ih =>
    have hx : (loop_body data false (some x)).2 = false := by
      rw [loop_body_terminate]; exact h x (List.mem_cons_self _ _)
    have ih2 := ih (fun y hy => h y (List.mem_cons_of_mem _ hy))
    rw [pops_cons, bus_loop_continue data x _ hx]
    exact ⟨ih2.1, ih2.2.1, by simp [ih2.2.2]⟩

/-- The loop leaves at the first ERROR or EOS message: what follows it is not
looked at. -/
theorem bus_loop_first_final (data : CustomData) (pre : List GstMessage) (m : GstMessage)
    (post : List GstMessage) (h : ∀ x ∈ pre, x.is_error_or_eos = false)
    (hm : m.is_error_or_eos = true) :
    (bus_loop data false (pops (pre ++ m :: post))).exited = true
    ∧ (bus_loop data false (pops (pre ++ m :: post))).terminate = true
    ∧ (bus_loop data false (pops (pre ++ m :: post))).consumed = pre.length + 1
    ∧ bus_loop data false (pops (pre ++ m :: post)) = bus_loop data false (pops (pre ++ [m])) := by
  induction pre with
  | nil =>
    have hx : (loop_body data false (some m)).2 = true := by
      rw [loop_body_terminate]; exact hm
    simp only [List.nil_append, pops_cons, bus_loop_stop data m _ hx, List.length_nil]
    simp
  | cons x rest ih =>
    have hx : (loop_body data false (some x)).2 = false := by
      rw [loop_body_terminate]; exact h x (List.mem_cons_self _ _)
    have ih2 := ih (fun y hy => h y (List.mem_cons_of_mem _ hy))
    simp only [List.cons_append, pops_cons, bus_loop_continue data x _ hx, List.length_cons]
    refine ⟨ih2.1, ih2.2.1, by rw [ih2.2.2.1], ?_⟩
    rw [ih2.2.2.2]

/-- The test `is_error_or_eos` spelled out. -/
theorem is_error_or_eos_iff (m : GstMessage) :
    m.is_error_or_eos = true ↔
      (m.type = GstMessageType.GST_MESSAGE_ERROR ∨ m.type = GstMessageType.GST_MESSAGE_EOS) := by
  simp [GstMessage.is_error_or_eos]

/-- The negation of the test `is_error_or_eos` spelled out. -/
theorem is_error_or_eos_false_iff (m : GstMessage) :
    m.is_error_or_eos = false ↔
      (m.type ≠ GstMessageType.GST_MESSAGE_ERROR ∧ m.type ≠ GstMessageType.GST_MESSAGE_EOS) := by
  simp [GstMessage.is_error_or_eos]

/-- The loop is left exactly when some popped message is ERROR or EOS. -/
theorem bus_loop_exited_iff (data : CustomData) (msgs : List GstMessage) :
    (bus_loop data false (pops msgs)).exited = true ↔ ∃ x ∈ msgs, x.is_error_or_eos = true := by
  induction msgs with
  | nil => simp [pops, bus_loop]
  | cons x rest ih =>
    cases hx : x.is_error_or_eos
    · have hb : (loop_body data false (some x)).2 = false := by rw [loop_body_terminate]; exact hx
      rw [pops_cons, bus_loop_continue data x _ hb]
      simp only [List.mem_cons, exists_eq_or_imp, hx, Bool.false_eq_true, false_or]
      exact ih
    · have hb : (loop_body data false (some x)).2 = true := by rw [loop_body_terminate]; exact hx
      rw [pops_cons, bus_loop_stop data x _ hb]
      simp [hx]

end Tutorial3

/-- C4: the loop of `main` of basic-tutorial-3 over the non-`NULL` messages
popped from the bus.  One pass sets `terminate` exactly for an ERROR or EOS
message (a state-changed message from any source and any other type leave it
false).  Over messages `pre` without ERROR and EOS the loop consumes all of
them and is still running; when a message `m` that is ERROR or EOS follows, the
loop is left right after `m`, having consumed `pre` and `m` and nothing of what
comes after.  For any message sequence the loop is left if and only if it
holds an ERROR or EOS message. -/
theorem C4_bus_loop_exits_at_first_error_or_eos (data : Tutorial3.CustomData)
    (pre post msgs : List GstMessage) (m : GstMessage) :
    ((Tutorial3.loop_body data false (some m)).2 = true ↔
      (m.type = GstMessageType.GST_MESSAGE_ERROR ∨ m.type = GstMessageType.GST_MESSAGE_EOS))
    ∧ ((∀ x ∈ pre, x.type ≠ GstMessageType.GST_MESSAGE_ERROR
          ∧ x.type ≠ GstMessageType.GST_MESSAGE_EOS) →
        ((Tutorial3.bus_loop data false (Tutorial3.pops pre)).exited = false
          ∧ (Tutorial3.bus_loop data false (Tutorial3.pops pre)).terminate = false
          ∧ (Tutorial3.bus_loop data false (Tutorial3.pops pre)).consumed = pre.length)
        ∧ ((m.type = GstMessageType.GST_MESSAGE_ERROR ∨ m.type = GstMessageType.GST_MESSAGE_EOS) →
          (Tutorial3.bus_loop data false (Tutorial3.pops (pre ++ m :: post))).exited = true
          ∧ (Tutorial3.bus_loop data false (Tutorial3.pops (pre ++ m :: post))).terminate = true
          ∧ (Tutorial3.bus_loop data false (Tutorial3.pops (pre ++ m :: post))).consumed
              = pre.length + 1
          ∧ Tutorial3.bus_loop data false (Tutorial3.pops (pre ++ m :: post))
              = Tutorial3.bus_loop data false (Tutorial3.pops (pre ++ [m]))))
    ∧ ((Tutorial3.bus_loop data false (Tutorial3.pops msgs)).exited = true ↔
        ∃ x ∈ msgs, x.type = GstMessageType.GST_MESSAGE_ERROR
          ∨ x.type = GstMessageType.GST_MESSAGE_EOS) := by
  refine ⟨?_, ?_, ?_⟩
  · rw [Tutorial3.loop_body_terminate, Tutorial3.is_error_or_eos_iff]
  · intro h
    have h2 : ∀ x ∈ pre, x.is_error_or_eos = false := fun x hx =>
      (Tutorial3.is_error_or_eos_false_iff x).mpr (h x hx)
    refine ⟨Tutorial3.bus_loop_no_final data pre h2, ?_⟩
    intro hm
    exact Tutorial3.bus_loop_first_final data pre m post h2
      ((Tutorial3.is_error_or_eos_iff m).mpr hm)
  · rw [Tutorial3.bus_loop_exited_iff]
    constructor
    · rintro ⟨x, hx, hf⟩
      exact ⟨x, hx, (Tutorial3.is_error_or_eos_iff x).mp hf⟩
    · rintro ⟨x, hx, hf⟩
      exact ⟨x, hx, (Tutorial3.is_error_or_eos_iff x).mpr hf⟩

/-- C4 at a concrete input: two state-changed messages (one from the pipeline,
one from another element) and a message of another type, then EOS, then an
ERROR that is never looked at. -/
theorem C4_bus_loop_exits_at_first_error_or_eos_witness :
    (Tutorial3.bus_loop data3 false (Tutorial3.pops
      ([msg_of GstMessageType.GST_MESSAGE_STATE_CHANGED 1,
        msg_of GstMessageType.GST_MESSAGE_STATE_CHANGED 2,
        msg_of (GstMessageType.other 4) 2]
        ++ msg_of GstMessageType.GST_MESSAGE_EOS 1
          :: [msg_of GstMessageType.GST_MESSAGE_ERROR 2]))).exited = true
    ∧ (Tutorial3.bus_loop data3 false (Tutorial3.pops
      ([msg_of GstMessageType.GST_MESSAGE_STATE_CHANGED 1,
        msg_of GstMessageType.GST_MESSAGE_STATE_CHANGED 2,
        msg_of (GstMessageType.other 4) 2]
        ++ msg_of GstMessageType.GST_MESSAGE_EOS 1
          :: [msg_of GstMessageType.GST_MESSAGE_ERROR 2]))).consumed = 4 :=
  have h := ((C4_bus_loop_exits_at_first_error_or_eos data3
    [msg_of GstMessageType.GST_MESSAGE_STATE_CHANGED 1,
     msg_of GstMessageType.GST_MESSAGE_STATE_CHANGED 2,
     msg_of (GstMessageType.other 4) 2]
    [msg_of GstMessageType.GST_MESSAGE_ERROR 2] []
    (msg_of GstMessageType.GST_MESSAGE_EOS 1)).2.1 (by decide)).2 (by decide)
  ⟨h.1, h.2.2.1⟩

/-- C5: in `pad_added_handler`, for a new pad whose negotiated media type is
`t`: with prefix "audio/x-raw" the handler fetches the "sink" pad of
`audio_convert`, otherwise with prefix "video/x-raw" the "sink" pad of
`video_convert`, otherwise no pad; and it calls `gst_pad_link (new_pad, target)`
exactly once when a target was fetched and `gst_pad_is_linked (target)` is
false, and not at all otherwise. -/
theorem C5_pad_added_handler_dispatch (gst : Tutorial3.Gst) (src : GstElement)
    (new_pad : GstPad) (data : Tutorial3.CustomData) (t : String)
    (ht : Tutorial3.new_pad_type gst new_pad = some t) :
    (Tutorial3.pad_added_handler gst src new_pad data).filter Call.is_get_static_pad
      = (if g_str_has_prefix (some t) "audio/x-raw" then
          [Call.gst_element_get_static_pad data.audio_convert "sink"]
        else if g_str_has_prefix (some t) "video/x-raw" then
          [Call.gst_element_get_static_pad data.video_convert "sink"]
        else [])
    ∧ (Tutorial3.pad_added_handler gst src new_pad data).filter Call.is_pad_link
      = (if g_str_has_prefix (some t) "audio/x-raw" then
          (if gst.gst_pad_is_linked (gst.gst_element_get_static_pad data.audio_convert "sink")
            then []
            else [Call.gst_pad_link (some new_pad)
              (gst.gst_element_get_static_pad data.audio_convert "sink")])
        else if g_str_has_prefix (some t) "video/x-raw" then
          (if gst.gst_pad_is_linked (gst.gst_element_get_static_pad data.video_convert "sink")
            then []
            else [Call.gst_pad_link (some new_pad)
              (gst.gst_element_get_static_pad data.video_convert "sink")])
        else []) := by
  unfold Tutorial3.new_pad_type at ht
  unfold Tutorial3.pad_added_handler Tutorial3.select_sink_pad Tutorial3.pad_added_handler_exit
  simp only [ht]
  constructor
  · split_ifs <;> simp [Call.is_get_static_pad, List.filter_cons] <;> (try split_ifs) <;>
      (try simp [Call.is_get_static_pad, List.filter_cons])
  · split_ifs <;> simp [Call.is_pad_link, List.filter_cons] <;> (try split_ifs) <;>
      (try simp [Call.is_pad_link, List.filter_cons])

/-- C5 at a concrete input: a raw audio pad and a free sink pad; the one link
call goes to the "sink" pad of `audio_convert`. -/
theorem C5_pad_added_handler_dispatch_witness :
    (Tutorial3.pad_added_handler (gst_with "audio/x-raw" false 0) 2 9 data3).filter
      Call.is_pad_link = [Call.gst_pad_link (some 9) (some 53)] :=
  (C5_pad_added_handler_dispatch (gst_with "audio/x-raw" false 0) 2 9 data3 "audio/x-raw"
    (by decide)).2.trans (by decide)

namespace Tutorial3

/-- A `pad-added` callback anywhere in the event sequence does not change
whether the loop of `main` is left, nor the value of `terminate`. -/
theorem bus_loop_insert_pad_added (data : CustomData) (gst : Gst) (src : GstElement)
    (new_pad : GstPad) (post : List Event) :
    ∀ (pre : List Event) (terminate : Bool),
      (bus_loop data terminate (pre ++ Event.pad_added gst src new_pad :: post)).exited
        = (bus_loop data terminate (pre ++ post)).exited
      ∧ (bus_loop data terminate (pre ++ Event.pad_added gst src new_pad :: post)).terminate
        = (bus_loop data terminate (pre ++ post)).terminate := by
  intro pre
  induction pre with
  | nil => intro terminate; simp [bus_loop]
  | cons e rest ih =>
    intro terminate
    cases e with
    | pad_added g s p => simpa [bus_loop] using ih terminate
    | bus_pop msg =>
      simp only [List.cons_append, bus_loop]
      split_ifs
      · exact ih _
      · exact ⟨rfl, rfl⟩

/-- A `pad-added` callback anywhere in the event sequence does not change
whether `main` returns, nor the value it returns. -/
theorem main_insert_pad_added (env : Env) (gst : Gst) (src : GstElement)
    (new_pad : GstPad) (pre post : List Event) :
    (main env (pre ++ Event.pad_added gst src new_pad :: post)).2 = (main env (pre ++ post)).2 := by
  unfold main
  simp only []
  split_ifs <;> try rfl
  all_goals
    simp only [(bus_loop_insert_pad_added (create_elements env) gst src new_pad post pre false).1]
        at *
  all_goals simp_all

end Tutorial3

/-- C3 refuted at a concrete input: all elements are created and linked, the
source emits `pad-added` for a raw audio pad and `gst_pad_link` returns the
failure -4.  The handler makes the link call and prints its message, but `main`
has not returned: it is still in its loop, and pops and handles the next bus
message (a state change of the pipeline) as usual. -/
theorem C3_failed_pad_link_does_not_terminate :
    GST_PAD_LINK_FAILED (-4) = true
    ∧ Call.gst_pad_link (some 9) (some 62) ∈
        (Tutorial3.main (env3 "" true true)
          [Tutorial3.Event.pad_added (gst_with "audio/x-raw" false (-4)) 2 9]).1
    ∧ Call.g_print "Type is '%s' bus link failed.\n" ["audio/x-raw"] ∈
        (Tutorial3.main (env3 "" true true)
          [Tutorial3.Event.pad_added (gst_with "audio/x-raw" false (-4)) 2 9]).1
    ∧ (Tutorial3.main (env3 "" true true)
          [Tutorial3.Event.pad_added (gst_with "audio/x-raw" false (-4)) 2 9]).2 = none
    ∧ (Tutorial3.bus_loop (Tutorial3.create_elements (env3 "" true true)) false
          [Tutorial3.Event.pad_added (gst_with "audio/x-raw" false (-4)) 2 9,
           Tutorial3.Event.bus_pop (some (msg_of GstMessageType.GST_MESSAGE_STATE_CHANGED 1))]).exited
        = false
    ∧ (Tutorial3.bus_loop (Tutorial3.create_elements (env3 "" true true)) false
          [Tutorial3.Event.pad_added (gst_with "audio/x-raw" false (-4)) 2 9,
           Tutorial3.Event.bus_pop (some (msg_of GstMessageType.GST_MESSAGE_STATE_CHANGED 1))]).consumed
        = 2 := by
  decide

/-- C3 as amended: when `pad_added_handler` attempts the link (a target pad
`sink` was selected for the media type `t` and is not linked yet) and
`gst_pad_link` fails, the handler prints "Type is '%s' bus link failed." for
`t`, then releases the caps with `gst_caps_unref` and the sink pad with
`gst_object_unref`, and returns: after the calls that fetched the caps and the
sink pad (the "sink" pad of `audio_convert` or of `video_convert`), its calls
are exactly the link, the message, the release of the caps and the release of
`sink`.  The callback does not end the program: wherever it
falls among the events, the loop of `main` is left and `main` returns exactly
as without it. -/
theorem C3_failed_pad_link_is_only_reported (gst : Tutorial3.Gst) (src : GstElement)
    (new_pad : GstPad) (data : Tutorial3.CustomData) (t : String) (sink : Option GstPad)
    (env : Tutorial3.Env) (pre post : List Tutorial3.Event) (terminate : Bool)
    (ht : Tutorial3.new_pad_type gst new_pad = some t)
    (hs : (Tutorial3.select_sink_pad gst data (some t)).1 = some sink)
    (hl : gst.gst_pad_is_linked sink = false)
    (hf : GST_PAD_LINK_FAILED (gst.gst_pad_link new_pad sink) = true) :
    Call.gst_pad_link (some new_pad) sink ∈ Tutorial3.pad_added_handler gst src new_pad data
    ∧ Call.g_print "Type is '%s' bus link failed.\n" [t]
        ∈ Tutorial3.pad_added_handler gst src new_pad data
    ∧ (Tutorial3.pad_added_handler gst src new_pad data).getLast?
        = some (Call.gst_object_unref sink)
    ∧ Tutorial3.pad_added_handler gst src new_pad data
        = [Call.g_print "Received new pad '%s' from '%s':\n"
            [gst.object_name new_pad, gst.object_name src],
           Call.gst_pad_get_current_caps new_pad]
          ++ (Tutorial3.select_sink_pad gst data (some t)).2
          ++ [Call.gst_pad_link (some new_pad) sink,
              Call.g_print "Type is '%s' bus link failed.\n" [t],
              Call.gst_caps_unref,
              Call.gst_object_unref sink]
    ∧ (∃ el, (el = data.audio_convert ∨ el = data.video_convert)
        ∧ sink = gst.gst_element_get_static_pad el "sink"
        ∧ (Tutorial3.select_sink_pad gst data (some t)).2
            = [Call.gst_element_get_static_pad el "sink"])
    ∧ (Tutorial3.bus_loop data terminate
          (pre ++ Tutorial3.Event.pad_added gst src new_pad :: post)).exited
        = (Tutorial3.bus_loop data terminate (pre ++ post)).exited
    ∧ (Tutorial3.bus_loop data terminate
          (pre ++ Tutorial3.Event.pad_added gst src new_pad :: post)).terminate
        = (Tutorial3.bus_loop data terminate (pre ++ post)).terminate
    ∧ (Tutorial3.main env (pre ++ Tutorial3.Event.pad_added gst src new_pad :: post)).2
        = (Tutorial3.main env (pre ++ post)).2 := by
  have hb := Tutorial3.bus_loop_insert_pad_added data gst src new_pad post pre terminate
  have hfetch : ∃ el, (el = data.audio_convert ∨ el = data.video_convert)
        ∧ sink = gst.gst_element_get_static_pad el "sink"
        ∧ (Tutorial3.select_sink_pad gst data (some t)).2
            = [Call.gst_element_get_static_pad el "sink"] := by
    unfold Tutorial3.select_sink_pad at hs ⊢
    split_ifs at hs ⊢ with h1 h2
    · exact ⟨data.audio_convert, Or.inl rfl, (Option.some.inj hs).symm, rfl⟩
    · exact ⟨data.video_convert, Or.inr rfl, (Option.some.inj hs).symm, rfl⟩
  have hcaps : gst.gst_pad_get_current_caps new_pad ≠ none := by
    intro hc
    unfold Tutorial3.new_pad_type at ht
    rw [hc] at ht
    simp [gst_caps_get_structure, gst_structure_get_name] at ht
  have hp : Tutorial3.pad_added_handler gst src new_pad data
        = [Call.g_print "Received new pad '%s' from '%s':\n"
            [gst.object_name new_pad, gst.object_name src],
           Call.gst_pad_get_current_caps new_pad]
          ++ (Tutorial3.select_sink_pad gst data (some t)).2
          ++ [Call.gst_pad_link (some new_pad) sink,
              Call.g_print "Type is '%s' bus link failed.\n" [t],
              Call.gst_caps_unref,
              Call.gst_object_unref sink] := by
    unfold Tutorial3.new_pad_type at ht
    unfold Tutorial3.pad_added_handler
    simp only [ht]
    rcases hsel : Tutorial3.select_sink_pad gst data (some t) with ⟨o, tr⟩
    rw [hsel] at hs
    simp only at hs
    subst hs
    simp [hl, hf, hcaps, Tutorial3.pad_added_handler_exit, fmt_s]
  refine ⟨?_, ?_, ?_, hp, hfetch, hb.1, hb.2,
    Tutorial3.main_insert_pad_added env gst src new_pad pre post⟩
  · rw [hp]; simp
  · rw [hp]; simp
  · rw [hp]
    rw [show ([Call.g_print "Received new pad '%s' from '%s':\n"
            [gst.object_name new_pad, gst.object_name src],
           Call.gst_pad_get_current_caps new_pad]
          ++ (Tutorial3.select_sink_pad gst data (some t)).2
          ++ [Call.gst_pad_link (some new_pad) sink,
              Call.g_print "Type is '%s' bus link failed.\n" [t],
              Call.gst_caps_unref,
              Call.gst_object_unref sink])
        = ([Call.g_print "Received new pad '%s' from '%s':\n"
            [gst.object_name new_pad, gst.object_name src],
           Call.gst_pad_get_current_caps new_pad]
          ++ (Tutorial3.select_sink_pad gst data (some t)).2
          ++ [Call.gst_pad_link (some new_pad) sink,
              Call.g_print "Type is '%s' bus link failed.\n" [t],
              Call.gst_caps_unref]) ++ [Call.gst_object_unref sink] from by simp]
    exact List.getLast?_concat _

/-- C3 as amended, at a concrete input: a raw audio pad whose link fails with
-4, followed by an EOS message on the bus. -/
theorem C3_failed_pad_link_is_only_reported_witness :
    Call.g_print "Type is '%s' bus link failed.\n" ["audio/x-raw"]
        ∈ Tutorial3.pad_added_handler (gst_with "audio/x-raw" false (-4)) 2 9 data3
    ∧ Tutorial3.pad_added_handler (gst_with "audio/x-raw" false (-4)) 2 9 data3
        = [Call.g_print "Received new pad '%s' from '%s':\n" ["name", "name"],
           Call.gst_pad_get_current_caps 9,
           Call.gst_element_get_static_pad (some 3) "sink",
           Call.gst_pad_link (some 9) (some 53),
           Call.g_print "Type is '%s' bus link failed.\n" ["audio/x-raw"],
           Call.gst_caps_unref,
           Call.gst_object_unref (some 53)]
    ∧ (Tutorial3.main (env3 "" true true)
        ([] ++ Tutorial3.Event.pad_added (gst_with "audio/x-raw" false (-4)) 2 9
          :: [Tutorial3.Event.bus_pop (some (msg_of GstMessageType.GST_MESSAGE_EOS 1))])).2
      = (Tutorial3.main (env3 "" true true)
        ([] ++ [Tutorial3.Event.bus_pop (some (msg_of GstMessageType.GST_MESSAGE_EOS 1))])).2 :=
  have h := C3_failed_pad_link_is_only_reported (gst_with "audio/x-raw" false (-4)) 2 9 data3
    "audio/x-raw" (some 53) (env3 "" true true) []
    [Tutorial3.Event.bus_pop (some (msg_of GstMessageType.GST_MESSAGE_EOS 1))] false
    (by decide) (by decide) (by decide) (by decide)
  ⟨h.2.1, h.2.2.2.1.trans (by decide), h.2.2.2.2.2.2.2⟩

/-- C8, the code at the failing input: for a new pad of media type
"text/x-raw" (neither raw audio nor raw video) `pad_added_handler` fetches no
sink pad, and the last call it makes is `gst_object_unref (sink_pad)` with
`sink_pad` still `NULL`. -/
theorem C8_unref_of_null_sink_pad :
    (Tutorial3.pad_added_handler (gst_with "text/x-raw" false 0) 2 9 data3).filter
        Call.is_get_static_pad = []
    ∧ (Tutorial3.pad_added_handler (gst_with "text/x-raw" false 0) 2 9 data3).getLast?
        = some (Call.gst_object_unref none) := by
  decide

namespace Tutorial8

/-- One more call of `push_data` after `feed`. -/
theorem feed_concat (rets : List GstFlowReturn) (r : GstFlowReturn) (w : World) :
    feed (rets ++ [r]) w = (push_data r (feed rets w)).1 := by
  simp [feed, List.foldl_append]

/-- The sample counter after a call of `push_data`, whatever it returns. -/
theorem push_data_num_samples (r : GstFlowReturn) (w : World) :
    (push_data r w).1.data.num_samples = (w.data.num_samples + 512) % 2 ^ 64 := by
  unfold push_data
  split_ifs <;> simp [CHUNK_SIZE]

/-- The calls of `push_data`, whatever it returns: the buffer pushed is
`push_data_buffer` of the data before the call. -/
theorem push_data_calls (r : GstFlowReturn) (w : World) :
    (push_data r w).1.calls = w.calls ++
      [Call.gst_buffer_new_and_alloc 1024, Call.gst_buffer_map_write_unmap,
       Call.push_buffer (push_data_buffer w.data), Call.gst_buffer_unref] := by
  unfold push_data
  split_ifs <;> simp [CHUNK_SIZE]

/-- The sample counter after `k` calls of `push_data` from 0, as long as
`512 * k` fits 64 bits. -/
theorem feed_num_samples (w : World) (h0 : w.data.num_samples = 0) :
    ∀ rets : List GstFlowReturn, 512 * rets.length < 2 ^ 64 →
      (feed rets w).data.num_samples = 512 * rets.length := by
  intro rets
  induction rets using List.reverseRecOn with
  | nil => intro _; simpa [feed] using h0
  | append_singleton rest r ih =>
    intro hk
    rw [List.length_append, List.length_singleton] at hk
    rw [feed_concat, push_data_num_samples, ih (by omega), List.length_append,
      List.length_singleton]
    omega

/-- The two time fields of the buffer built from a sample counter `n` whose
timestamp fits 64 bits. -/
theorem push_data_buffer_times (data : CustomData)
    (h : data.num_samples * 1000000000 / 44100 < 2 ^ 64) :
    (push_data_buffer data).timestamp = data.num_samples * 1000000000 / 44100
    ∧ (push_data_buffer data).duration = 11609977
    ∧ (push_data_buffer data).size = 1024 := by
  have h2 : data.num_samples * 1000000000 / 44100 ≤ 2 ^ 64 - 1 := by omega
  have h3 : gst_util_uint64_scale data.num_samples GST_SECOND SAMPLE_RATE
      = data.num_samples * 1000000000 / 44100 := by
    unfold gst_util_uint64_scale
    rw [if_neg (by decide), if_pos (by simpa [G_MAXUINT64, GST_SECOND, SAMPLE_RATE] using h2)]
    rfl
  have h4 : gst_util_uint64_scale (CHUNK_SIZE / 2) GST_SECOND SAMPLE_RATE = 11609977 := by
    decide
  exact ⟨h3, h4, rfl⟩

end Tutorial8

/-- C10: starting from `num_samples = 0`, after `k` calls of `push_data`
(whatever they returned), and as long as the timestamp of buffer `k + 1` still
fits 64 bits: the counter is `512 * k`, and the next call adds 512 to it; the
buffer that call pushes (buffer `k`) has timestamp `512 * k * 10^9 / 44100` and
duration `11609977`; the timestamp of buffer `k + 1` is strictly larger, and
the gap between the two is the duration or the duration plus 1. -/
theorem C10_buffer_timestamps (w : Tutorial8.World) (rets : List GstFlowReturn)
    (r : GstFlowReturn)
    (h0 : w.data.num_samples = 0)
    (hk : 512 * (rets.length + 1) * 1000000000 / 44100 < 2 ^ 64) :
    (Tutorial8.feed rets w).data.num_samples = 512 * rets.length
    ∧ (Tutorial8.push_data r (Tutorial8.feed rets w)).1.data.num_samples
        = (Tutorial8.feed rets w).data.num_samples + Tutorial8.CHUNK_SIZE / 2
    ∧ Call.push_buffer (Tutorial8.push_data_buffer (Tutorial8.feed rets w).data)
        ∈ (Tutorial8.push_data r (Tutorial8.feed rets w)).1.calls
    ∧ (Tutorial8.push_data_buffer (Tutorial8.feed rets w).data).timestamp
        = 512 * rets.length * 1000000000 / 44100
    ∧ (Tutorial8.push_data_buffer (Tutorial8.feed rets w).data).duration = 11609977
    ∧ (Tutorial8.push_data_buffer (Tutorial8.feed rets w).data).timestamp
        < (Tutorial8.push_data_buffer (Tutorial8.feed (rets ++ [r]) w).data).timestamp
    ∧ ((Tutorial8.push_data_buffer (Tutorial8.feed (rets ++ [r]) w).data).timestamp
          - (Tutorial8.push_data_buffer (Tutorial8.feed rets w).data).timestamp
        = (Tutorial8.push_data_buffer (Tutorial8.feed rets w).data).duration
      ∨ (Tutorial8.push_data_buffer (Tutorial8.feed (rets ++ [r]) w).data).timestamp
          - (Tutorial8.push_data_buffer (Tutorial8.feed rets w).data).timestamp
        = (Tutorial8.push_data_buffer (Tutorial8.feed rets w).data).duration + 1) := by
  have hn := Tutorial8.feed_num_samples w h0 rets (by omega)
  have hn1 := Tutorial8.feed_num_samples w h0 (rets ++ [r])
    (by rw [List.length_append, List.length_singleton]; omega)
  rw [List.length_append, List.length_singleton] at hn1
  have hb := Tutorial8.push_data_buffer_times (Tutorial8.feed rets w).data (by rw [hn]; omega)
  have hb1 := Tutorial8.push_data_buffer_times (Tutorial8.feed (rets ++ [r]) w).data
    (by rw [hn1]; omega)
  rw [hn] at hb
  rw [hn1] at hb1
  refine ⟨hn, ?_, ?_, hb.1, hb.2.1, ?_, ?_⟩
  · rw [Tutorial8.push_data_num_samples, hn]
    simp only [Tutorial8.CHUNK_SIZE]
    omega
  · rw [Tutorial8.push_data_calls]
    simp
  · rw [hb.1, hb1.1]
    omega
  · rw [hb.1, hb1.1, hb.2.1]
    omega

/-- C10 at a concrete input: the first three calls of `push_data` in the
world at loop entry, the second of which got a flow error. -/
theorem C10_buffer_timestamps_witness :
    (Tutorial8.feed [0, -5, 0] world8).data.num_samples = 512 * 3
    ∧ (Tutorial8.push_data_buffer (Tutorial8.feed [0, -5, 0] world8).data).timestamp
        = 512 * 3 * 1000000000 / 44100
    ∧ (Tutorial8.push_data_buffer (Tutorial8.feed [0, -5, 0] world8).data).duration = 11609977 :=
  have h := C10_buffer_timestamps world8 [0, -5, 0] 0 (by rfl) (by decide)
  ⟨h.1, h.2.2.2.1, h.2.2.2.2.1⟩

namespace Tutorial8

/-- The function `error_cb` makes its six calls, the last of which is
`g_main_loop_quit`, and leaves the loop marked as quit. -/
theorem error_cb_spec (msg : GstMessage) (w : World) :
    (error_cb msg w).quit = true
    ∧ (error_cb msg w).calls = w.calls ++ error_cb_calls msg
    ∧ (error_cb msg w).data = w.data := by
  simp [error_cb, error_cb_calls]

/-- No handler but `error_cb` touches the quit mark, and no handler changes
the element pointers of the shared struct. -/
theorem dispatch_spec (ev : Event) (w : World) :
    (dispatch ev w).quit = (w.quit || ev.is_error)
    ∧ (dispatch ev w).data.tee = w.data.tee
    ∧ (dispatch ev w).data.pipeline = w.data.pipeline := by
  cases ev with
  | need_data size =>
    simp only [dispatch, start_feed, g_idle_add, Event.is_error, Bool.or_false]
    split_ifs <;> exact ⟨rfl, rfl, rfl⟩
  | enough_data =>
    simp only [dispatch, stop_feed, g_source_remove, Event.is_error, Bool.or_false]
    split_ifs <;> exact ⟨rfl, rfl, rfl⟩
  | new_sample sample =>
    cases sample <;> simp [dispatch, new_sample, Event.is_error]
  | bus_message msg =>
    simp only [dispatch, Event.is_error]
    split_ifs with h
    · simp [error_cb, h]
    · simp [h]
  | idle id ret =>
    simp only [dispatch, push_data, Event.is_error, Bool.or_false]
    split_ifs <;> exact ⟨rfl, rfl, rfl⟩

/-- Over events without an error message the main loop keeps running. -/
theorem g_main_loop_run_no_error (events : List Event)
    (h : ∀ ev ∈ events, ev.is_error = false) :
    ∀ w : World, w.quit = false →
      (g_main_loop_run w events).2 = false := by
  induction events with
  | nil => intro w _; rfl
  | cons ev rest ih =>
    intro w hw
    have hq : (dispatch ev w).quit = false := by
      rw [(dispatch_spec ev w).1, hw, h ev (List.mem_cons_self _ _)]; rfl
    simp only [g_main_loop_run, hq, Bool.false_eq_true, if_false]
    exact ih (fun e he => h e (List.mem_cons_of_mem _ he)) _ hq

/-- At the first error message the main loop returns, right after `error_cb`;
the events after it are not dispatched, and the element pointers are as
before. -/
theorem g_main_loop_run_first_error (pre : List Event) (msg : GstMessage) (post : List Event)
    (h : ∀ ev ∈ pre, ev.is_error = false)
    (hm : msg.type = GstMessageType.GST_MESSAGE_ERROR) :
    ∀ w : World, w.quit = false →
      (g_main_loop_run w (pre ++ Event.bus_message msg :: post)).2 = true
      ∧ (∃ before, (g_main_loop_run w (pre ++ Event.bus_message msg :: post)).1.calls
          = before ++ error_cb_calls msg)
      ∧ (g_main_loop_run w (pre ++ Event.bus_message msg :: post)).1.data.tee = w.data.tee
      ∧ (g_main_loop_run w (pre ++ Event.bus_message msg :: post)).1.data.pipeline
          = w.data.pipeline
      ∧ g_main_loop_run w (pre ++ Event.bus_message msg :: post)
          = g_main_loop_run w (pre ++ [Event.bus_message msg]) := by
  induction pre with
  | nil =>
    intro w _
    have hd : dispatch (Event.bus_message msg) w = error_cb msg w := by
      simp [dispatch, hm]
    have hq := (error_cb_spec msg w).1
    simp only [List.nil_append, g_main_loop_run, hd, hq, if_true]
    exact ⟨trivial, ⟨w.calls, (error_cb_spec msg w).2.1⟩, rfl, rfl, trivial⟩
  | cons ev rest ih =>
    intro w hw
    have hs := dispatch_spec ev w
    have hq : (dispatch ev w).quit = false := by
      rw [hs.1, hw, h ev (List.mem_cons_self _ _)]; rfl
    simp only [List.cons_append, g_main_loop_run, hq, Bool.false_eq_true, if_false]
    have ih2 := ih (fun e he => h e (List.mem_cons_of_mem _ he)) _ hq
    rw [hs.2.1, hs.2.2] at ih2
    exact ih2

end Tutorial8

namespace Tutorial8

/-- With the setup succeeded, `main` is the main loop run from the entry world,
followed by the teardown once the loop has returned. -/
theorem main_of_setup_ok (env : Env) (events : List Event) (h : setup_ok env) :
    main env events =
      if (g_main_loop_run (entry_world env) events).2 then
        ((g_main_loop_run (entry_world env) events).1.calls
          ++ teardown_calls (g_main_loop_run (entry_world env) events).1.data
              (env.gst_element_get_request_pad (create_elements env).tee "src_%u" 0)
              (env.gst_element_get_request_pad (create_elements env).tee "src_%u" 1)
              (env.gst_element_get_request_pad (create_elements env).tee "src_%u" 2), some 0)
      else ((g_main_loop_run (entry_world env) events).1.calls, none) := by
  obtain ⟨h1, h2, h3⟩ := h
  have hl := chain_links_failed_iff env
  rw [h2] at hl
  have hq := pad_links_failed_iff env
  rw [h3] at hq
  unfold pad_link_ops at hq
  unfold main
  simp only [creation_check_false_t8 env h1, hl, hq]
  simp [entry_world, request_calls, pad_link_ops]

end Tutorial8

/-- C6: in tutorial 8 `error_cb` always ends with `g_main_loop_quit` and marks
the loop as quit.  With the setup succeeded, `main` is still inside
`g_main_loop_run` as long as no error message was delivered, and with the first
error message it returns 0; nothing delivered after that message is
dispatched, and the calls `main` makes after the `g_main_loop_quit` of
`error_cb` are exactly the teardown: the print, the release of the three tee
request pads, their unref, `gst_element_set_state (pipeline, GST_STATE_NULL)`
and the unref of the pipeline. -/
theorem C6_first_error_ends_loop_then_teardown (env : Tutorial8.Env)
    (pre post : List Tutorial8.Event) (msg : GstMessage) (w : Tutorial8.World)
    (hs : Tutorial8.setup_ok env)
    (hpre : ∀ ev ∈ pre, ev.is_error = false)
    (hm : msg.type = GstMessageType.GST_MESSAGE_ERROR) :
    (Tutorial8.error_cb msg w).quit = true
    ∧ (Tutorial8.error_cb msg w).calls.getLast? = some Call.g_main_loop_quit
    ∧ (Tutorial8.main env pre).2 = none
    ∧ (Tutorial8.main env (pre ++ Tutorial8.Event.bus_message msg :: post)).2 = some 0
    ∧ Tutorial8.main env (pre ++ Tutorial8.Event.bus_message msg :: post)
        = Tutorial8.main env (pre ++ [Tutorial8.Event.bus_message msg])
    ∧ ∃ before, (Tutorial8.main env (pre ++ Tutorial8.Event.bus_message msg :: post)).1
        = before
          ++ [Call.gst_message_parse_error,
              Call.g_printerr "Error received from element %s: %s\n"
                [msg.src_name, msg.err_message],
              Call.g_printerr "Debugging information: %sn" [msg.debug_info.getD "none"],
              Call.g_clear_error,
              Call.g_free,
              Call.g_main_loop_quit]
          ++ [Call.g_print "request pad released\n" [],
              Call.gst_element_release_request_pad (env.gst_element_factory_make "tee" "tee")
                (env.gst_element_get_request_pad
                  (env.gst_element_factory_make "tee" "tee") "src_%u" 0),
              Call.gst_element_release_request_pad (env.gst_element_factory_make "tee" "tee")
                (env.gst_element_get_request_pad
                  (env.gst_element_factory_make "tee" "tee") "src_%u" 1),
              Call.gst_element_release_request_pad (env.gst_element_factory_make "tee" "tee")
                (env.gst_element_get_request_pad
                  (env.gst_element_factory_make "tee" "tee") "src_%u" 2),
              Call.gst_object_unref (env.gst_element_get_request_pad
                (env.gst_element_factory_make "tee" "tee") "src_%u" 0),
              Call.gst_object_unref (env.gst_element_get_request_pad
                (env.gst_element_factory_make "tee" "tee") "src_%u" 1),
              Call.gst_object_unref (env.gst_element_get_request_pad
                (env.gst_element_factory_make "tee" "tee") "src_%u" 2),
              Call.gst_element_set_state (env.gst_pipeline_new "test-pipeline")
                GstState.GST_STATE_NULL,
              Call.gst_object_unref (env.gst_pipeline_new "test-pipeline")] := by
  have hrun := Tutorial8.g_main_loop_run_first_error pre msg post hpre hm
    (Tutorial8.entry_world env) rfl
  obtain ⟨hr1, ⟨before, hr2⟩, hr3, hr4, hr5⟩ := hrun
  have hno := Tutorial8.g_main_loop_run_no_error pre hpre (Tutorial8.entry_world env) rfl
  refine ⟨(Tutorial8.error_cb_spec msg w).1, ?_, ?_, ?_, ?_, ?_⟩
  · rw [(Tutorial8.error_cb_spec msg w).2.1]
    simp [Tutorial8.error_cb_calls]
  · rw [Tutorial8.main_of_setup_ok env pre hs, hno]
    rfl
  · rw [Tutorial8.main_of_setup_ok env _ hs, hr1]
    rfl
  · rw [Tutorial8.main_of_setup_ok env _ hs, Tutorial8.main_of_setup_ok env _ hs, hr5]
  · refine ⟨before, ?_⟩
    rw [Tutorial8.main_of_setup_ok env _ hs, hr1]
    simp only [if_true, hr2]
    unfold Tutorial8.teardown_calls
    rw [hr3, hr4]
    rfl

/-- C6 at a concrete input: feeding starts, one buffer is pushed, an EOS
message passes, then an error message arrives, followed by one more
`need-data`. -/
theorem C6_first_error_ends_loop_then_teardown_witness :
    (Tutorial8.main (env8 "" 0 9)
      [Tutorial8.Event.need_data 1024, Tutorial8.Event.idle 2 0,
       Tutorial8.Event.bus_message (msg_of GstMessageType.GST_MESSAGE_EOS 1)]).2 = none
    ∧ (Tutorial8.main (env8 "" 0 9)
      ([Tutorial8.Event.need_data 1024, Tutorial8.Event.idle 2 0,
        Tutorial8.Event.bus_message (msg_of GstMessageType.GST_MESSAGE_EOS 1)]
        ++ Tutorial8.Event.bus_message (msg_of GstMessageType.GST_MESSAGE_ERROR 5)
          :: [Tutorial8.Event.need_data 1024])).2 = some 0
    ∧ ∃ before, (Tutorial8.main (env8 "" 0 9)
      ([Tutorial8.Event.need_data 1024, Tutorial8.Event.idle 2 0,
        Tutorial8.Event.bus_message (msg_of GstMessageType.GST_MESSAGE_EOS 1)]
        ++ Tutorial8.Event.bus_message (msg_of GstMessageType.GST_MESSAGE_ERROR 5)
          :: [Tutorial8.Event.need_data 1024])).1
        = before
          ++ [Call.gst_message_parse_error,
              Call.g_printerr "Error received from element %s: %s\n" ["element", "failure"],
              Call.g_printerr "Debugging information: %sn" ["none"],
              Call.g_clear_error,
              Call.g_free,
              Call.g_main_loop_quit]
          ++ [Call.g_print "request pad released\n" [],
              Call.gst_element_release_request_pad (some 6) (some 100),
              Call.gst_element_release_request_pad (some 6) (some 101),
              Call.gst_element_release_request_pad (some 6) (some 102),
              Call.gst_object_unref (some 100),
              Call.gst_object_unref (some 101),
              Call.gst_object_unref (some 102),
              Call.gst_element_set_state (some 1) GstState.GST_STATE_NULL,
              Call.gst_object_unref (some 1)] :=
  have h := C6_first_error_ends_loop_then_teardown (env8 "" 0 9)
    [Tutorial8.Event.need_data 1024, Tutorial8.Event.idle 2 0,
     Tutorial8.Event.bus_message (msg_of GstMessageType.GST_MESSAGE_EOS 1)]
    [Tutorial8.Event.need_data 1024] (msg_of GstMessageType.GST_MESSAGE_ERROR 5) world8
    (by unfold Tutorial8.setup_ok Tutorial8.creation_failed; decide) (by decide) (by decide)
  ⟨h.2.2.1, h.2.2.2.1, h.2.2.2.2.2⟩

namespace Tutorial8

/-- The main loop returns exactly when an error message is among the events
delivered. -/
theorem g_main_loop_run_returns_iff (events : List Event) :
    ∀ w : World, w.quit = false →
      ((g_main_loop_run w events).2 = true ↔ ∃ ev ∈ events, ev.is_error = true) := by
  induction events with
  | nil => intro w _; simp [g_main_loop_run]
  | cons ev rest ih =>
    intro w hw
    have hs := (dispatch_spec ev w).1
    rw [hw, Bool.false_or] at hs
    cases he : ev.is_error
    · rw [he] at hs
      simp only [g_main_loop_run, hs, Bool.false_eq_true, if_false, List.mem_cons,
        exists_eq_or_imp, he, false_or]
      exact ih _ hs
    · rw [he] at hs
      simp [g_main_loop_run, hs, he]

/-- An event is an error message exactly when it is a bus message of type
`GST_MESSAGE_ERROR`. -/
theorem is_error_iff (ev : Event) :
    ev.is_error = true ↔
      ∃ m, ev = Event.bus_message m ∧ m.type = GstMessageType.GST_MESSAGE_ERROR := by
  cases ev <;> simp [Event.is_error]

end Tutorial8

/-- C7 refuted at a concrete input: with the setup succeeded, an
end-of-stream message delivered on the bus is dispatched to no handler, the
world is unchanged and `main` is still inside `g_main_loop_run`; an error
message in its place makes `main` return 0. -/
theorem C7_eos_does_not_end_main_loop :
    Tutorial8.dispatch (Tutorial8.Event.bus_message (msg_of GstMessageType.GST_MESSAGE_EOS 1))
        world8 = world8
    ∧ (Tutorial8.main (env8 "" 0 9)
        [Tutorial8.Event.bus_message (msg_of GstMessageType.GST_MESSAGE_EOS 1)]).2 = none
    ∧ (Tutorial8.main (env8 "" 0 9)
        [Tutorial8.Event.bus_message (msg_of GstMessageType.GST_MESSAGE_ERROR 1)]).2 = some 0 := by
  decide

/-- C7 as amended: with the setup succeeded, `main` of tutorial 8 stays inside
`g_main_loop_run` until an error message is delivered on the bus: it returns
(with 0) if and only if some delivered event is a bus message of type
`GST_MESSAGE_ERROR`.  A bus message of any other type, end-of-stream included,
reaches no handler and changes nothing. -/
theorem C7_main_loop_ends_only_on_error (env : Tutorial8.Env) (events : List Tutorial8.Event)
    (hs : Tutorial8.setup_ok env) :
    ((Tutorial8.main env events).2 = some 0 ↔
      ∃ m, Tutorial8.Event.bus_message m ∈ events ∧ m.type = GstMessageType.GST_MESSAGE_ERROR)
    ∧ ((Tutorial8.main env events).2 = none ↔
      ¬ ∃ m, Tutorial8.Event.bus_message m ∈ events ∧ m.type = GstMessageType.GST_MESSAGE_ERROR)
    ∧ ∀ (m : GstMessage) (w : Tutorial8.World), m.type ≠ GstMessageType.GST_MESSAGE_ERROR →
        Tutorial8.dispatch (Tutorial8.Event.bus_message m) w = w := by
  have hiff := Tutorial8.g_main_loop_run_returns_iff events (Tutorial8.entry_world env) rfl
  have hex : (∃ ev ∈ events, ev.is_error = true) ↔
      ∃ m, Tutorial8.Event.bus_message m ∈ events
        ∧ m.type = GstMessageType.GST_MESSAGE_ERROR := by
    constructor
    · rintro ⟨ev, hev, he⟩
      obtain ⟨m, rfl, hm⟩ := (Tutorial8.is_error_iff ev).mp he
      exact ⟨m, hev, hm⟩
    · rintro ⟨m, hev, hm⟩
      exact ⟨_, hev, (Tutorial8.is_error_iff _).mpr ⟨m, rfl, hm⟩⟩
  rw [hex] at hiff
  rw [Tutorial8.main_of_setup_ok env events hs]
  refine ⟨?_, ?_, ?_⟩
  · rw [← hiff]
    cases (Tutorial8.g_main_loop_run (Tutorial8.entry_world env) events).2 <;> simp
  · rw [← hiff]
    cases (Tutorial8.g_main_loop_run (Tutorial8.entry_world env) events).2 <;> simp
  · intro m w hm
    simp [Tutorial8.dispatch, hm]

/-- C7 as amended, at a concrete input: feeding starts and stops and an
end-of-stream message passes; `main` has not returned. -/
theorem C7_main_loop_ends_only_on_error_witness :
    (Tutorial8.main (env8 "" 0 9)
      [Tutorial8.Event.need_data 1024, Tutorial8.Event.enough_data,
       Tutorial8.Event.bus_message (msg_of GstMessageType.GST_MESSAGE_EOS 1)]).2 = none :=
  (C7_main_loop_ends_only_on_error (env8 "" 0 9)
    [Tutorial8.Event.need_data 1024, Tutorial8.Event.enough_data,
     Tutorial8.Event.bus_message (msg_of GstMessageType.GST_MESSAGE_EOS 1)]
    (by unfold Tutorial8.setup_ok Tutorial8.creation_failed; decide)).2.1.mpr
    (by
      rintro ⟨m, hmem, hm⟩
      simp only [List.mem_cons, List.mem_singleton, List.not_mem_nil, or_false] at hmem
      rcases hmem with h | h | h
      · cases h
      · cases h
      · cases h
        exact absurd hm (by decide))

namespace Tutorial8

/-- Every handler keeps the feeder bookkeeping: at most one idle source is
attached, and when one is, `sourceid` holds its id. -/
theorem dispatch_keeps_feeder (ev : Event) (w : World)
    (h : feeder_registered_at_most_once w) :
    feeder_registered_at_most_once (dispatch ev w) := by
  unfold feeder_registered_at_most_once at h ⊢
  obtain ⟨h1, h2⟩ := h
  cases ev with
  | need_data size =>
    by_cases h0 : w.data.sourceid = 0
    · have hl : w.idle_sources = [] := by
        rcases h1 with h1 | ⟨h1, _⟩
        · exact h1
        · exact absurd h0 h1
      simp [dispatch, start_feed, g_idle_add, h0, hl]
    · simp only [dispatch, start_feed, h0, if_false]
      exact ⟨h1, h2⟩
  | enough_data =>
    by_cases h0 : w.data.sourceid = 0
    · have hd : dispatch Event.enough_data w = w := by simp [dispatch, stop_feed, h0]
      rw [hd]
      exact ⟨h1, h2⟩
    · rcases h1 with h1 | ⟨_, h1⟩
      · simp [dispatch, stop_feed, g_source_remove, h0, h1]
      · simp [dispatch, stop_feed, g_source_remove, h0, h1]
  | new_sample sample =>
    cases sample <;> exact ⟨h1, h2⟩
  | bus_message msg =>
    by_cases hm : msg.type = GstMessageType.GST_MESSAGE_ERROR
    · simp only [dispatch, error_cb, hm, if_true]
      exact ⟨h1, h2⟩
    · simp only [dispatch, hm, if_false]
      exact ⟨h1, h2⟩
  | idle id ret =>
    by_cases hmem : id ∈ w.idle_sources
    · rcases h1 with h1 | ⟨h0, h1⟩
      · rw [h1] at hmem
        exact absurd hmem (List.not_mem_nil _)
      · have hid : id = w.data.sourceid := by
          rw [h1] at hmem
          simpa using hmem
        by_cases hret : ret = GST_FLOW_OK
        · simp only [dispatch, push_data, hmem, hret, if_true, ne_eq, not_true_eq_false,
            if_false]
          exact ⟨Or.inr ⟨h0, h1⟩, h2⟩
        · simp only [dispatch, push_data, hmem, hret, if_true, ne_eq, not_false_eq_true,
            Bool.false_eq_true, if_false]
          refine ⟨Or.inl ?_, h2⟩
          simp [h1, hid]
    · simp only [dispatch, hmem, if_false]
      exact ⟨h1, h2⟩

end Tutorial8

/-- C9, the code at the failing input: from the world at loop entry
(`sourceid = 0`, no idle source), `need-data` attaches idle source 2 and stores
it in `sourceid`; the idle callback `push_data` then gets `GST_FLOW_ERROR` from
`push-buffer` and returns `FALSE`, so the main loop detaches source 2, while
`sourceid` stays 2.  In that state no idle source is attached although
`sourceid` is not 0; a further `need-data` changes nothing (no feeder is
attached), and `enough-data` calls `g_source_remove (2)` for the source that is
no longer attached.  The same run through `main` makes one `g_idle_add` and
one `g_source_remove` only. -/
theorem C9_sourceid_stale_after_failed_push :
    (Tutorial8.dispatch (Tutorial8.Event.need_data 1024) world8).data.sourceid = 2
    ∧ (Tutorial8.dispatch (Tutorial8.Event.need_data 1024) world8).idle_sources = [2]
    ∧ (Tutorial8.dispatch (Tutorial8.Event.idle 2 GST_FLOW_ERROR)
        (Tutorial8.dispatch (Tutorial8.Event.need_data 1024) world8)).data.sourceid = 2
    ∧ (Tutorial8.dispatch (Tutorial8.Event.idle 2 GST_FLOW_ERROR)
        (Tutorial8.dispatch (Tutorial8.Event.need_data 1024) world8)).idle_sources = []
    ∧ Tutorial8.dispatch (Tutorial8.Event.need_data 1024)
        (Tutorial8.dispatch (Tutorial8.Event.idle 2 GST_FLOW_ERROR)
          (Tutorial8.dispatch (Tutorial8.Event.need_data 1024) world8))
      = Tutorial8.dispatch (Tutorial8.Event.idle 2 GST_FLOW_ERROR)
          (Tutorial8.dispatch (Tutorial8.Event.need_data 1024) world8)
    ∧ (Tutorial8.dispatch Tutorial8.Event.enough_data
        (Tutorial8.dispatch (Tutorial8.Event.idle 2 GST_FLOW_ERROR)
          (Tutorial8.dispatch (Tutorial8.Event.need_data 1024) world8))).calls.getLast?
      = some (Call.g_source_remove 2)
    ∧ (Tutorial8.main (env8 "" 0 9)
        [Tutorial8.Event.need_data 1024, Tutorial8.Event.idle 2 GST_FLOW_ERROR,
         Tutorial8.Event.need_data 1024, Tutorial8.Event.enough_data]).1.filter
          Call.is_source_call
      = [Call.g_idle_add 2, Call.g_source_remove 2] := by
  decide
